import Mathlib

/-!
Verification of the SAGE eligibility/fix reasoning engine.

This file gives a shallow embedding, in Lean 4, of the core services of the
repository (backend/app/services/rules_engine.py, fix_finder_service.py,
eligibility_reasoner.py, llm_usage_service.py) and proves or refutes the
frozen claims about them.

Modelling conventions:
- Python floats are modelled as exact rationals (`Rat`); the claims under
  study are about the structure of the formulas and control flow, not about
  IEEE-754 rounding.
- Python code that can raise is modelled with `Except String`; a `.error`
  value corresponds to an uncaught Python exception at that point.
- External collaborators (the generative model, the embedding and
  vector-search services, the database) are universally quantified oracle
  parameters, so theorems cover every collaborator behaviour.
- Mutable state that the claims mention (the telemetry records of
  llm_usage_service) is threaded explicitly as a state value.
-/

set_option maxRecDepth 20000

-- Batteries marks the arithmetic on Rat irreducible, which blocks `decide`
-- and `rfl` on concrete rational computations; restore reducibility (this
-- only affects elaboration, not soundness).
set_option allowUnsafeReducibility true in
attribute [semireducible] Rat.mul Rat.inv Rat.add Rat.sub

namespace Sage

/-! ## Data model

backend/app/services/rules_engine.py defines a plain dataclass
`LoanScenario`; backend/app/models/loan.py defines a pydantic model with the
same eleven fields plus validation constraints.  Both are embedded as the
single structure below; the pydantic constraints become the predicate
`PydanticValid`. -/

/-- The eleven fields shared by the `LoanScenario` dataclass
(rules_engine.py) and the pydantic `LoanScenario` model (models/loan.py). -/
structure LoanScenario where
  credit_score : Int
  annual_income : Rat
  is_first_time_buyer : Bool
  loan_amount : Rat
  property_value : Rat
  loan_term_years : Int
  monthly_debt_payments : Rat
  property_type : String
  property_state : String
  property_county : String
  occupancy : String
deriving Repr, DecidableEq

/-- The field constraints that the pydantic `LoanScenario` model
(models/loan.py) enforces at construction time. -/
def PydanticValid (s : LoanScenario) : Prop :=
  300 ≤ s.credit_score ∧ s.credit_score ≤ 850 ∧
  0 < s.annual_income ∧ 0 < s.loan_amount ∧ 0 < s.property_value ∧
  (s.loan_term_years = 15 ∨ s.loan_term_years = 20 ∨ s.loan_term_years = 30) ∧
  0 ≤ s.monthly_debt_payments ∧
  s.property_type ∈ (["single_family", "condo", "pud", "2_unit", "3_unit",
    "4_unit", "manufactured"] : List String) ∧
  s.occupancy ∈ (["primary", "secondary", "investment"] : List String)

instance (s : LoanScenario) : Decidable (PydanticValid s) := by
  unfold PydanticValid; infer_instance

/-- rules_engine.py `RuleViolation` dataclass (all fields strings). -/
structure RuleViolation where
  rule_name : String
  rule_description : String
  actual_value : String
  required_value : String
  citation : String
deriving Repr, DecidableEq

/-- rules_engine.py `ProductResult` dataclass. -/
structure ProductResult where
  product_name : String
  gse : String
  eligible : Bool
  violations : List RuleViolation
deriving Repr, DecidableEq

/-! ## Python number formatting

The rules engine renders the actual/required values of violations with
f-strings such as `f"{dti * 100:.1f}%"` and `f"${loan_amount:,.0f}"`.
Python formats floats by rounding to the nearest representable decimal,
ties to even; we model that as exact round-half-even on the rational.
(The sign of a negative zero is not modelled; no claim depends on it.) -/

/-- Python `str.lower()` (the repository only lowercases ASCII field
values).  Implemented over the character list so that it evaluates inside
the kernel. -/
def pyLower (s : String) : String := String.mk (s.data.map Char.toLower)

/-- Round to the nearest integer, ties to the even integer (the rounding
used by Python float formatting). -/
def roundHalfEven (x : Rat) : Int :=
  let f := x.floor
  let frac := x - (f : Rat)
  if frac < 1/2 then f
  else if frac > 1/2 then f + 1
  else if f % 2 = 0 then f else f + 1

/-- Split a reversed digit list into groups of three (for `,` grouping). -/
def chunk3 : List Char → List (List Char)
  | [] => []
  | [a] => [[a]]
  | [a, b] => [[a, b]]
  | a :: b :: c :: rest => [a, b, c] :: chunk3 rest

/-- Python `f"{n:,}"` digit grouping of a natural number. -/
def commaGroupNat (n : Nat) : String :=
  let ds := (toString n).data.reverse
  String.mk ((chunk3 ds).intersperse [',']).flatten.reverse

/-- Python `f"{x:.prec f}"` fixed-point formatting of a float. -/
def pyFixed (prec : Nat) (x : Rat) : String :=
  let scaled := roundHalfEven (x * (10 : Rat) ^ prec)
  let sign := if scaled < 0 then "-" else ""
  let m := toString scaled.natAbs
  if prec = 0 then sign ++ m
  else
    let padded := if m.length ≤ prec then
        String.mk (List.replicate (prec + 1 - m.length) '0') ++ m
      else m
    let k := padded.data.length - prec
    sign ++ String.mk (padded.data.take k) ++ "." ++ String.mk (padded.data.drop k)

/-- Python `f"{x:,.0f}"`: round to an integer, group digits by thousands. -/
def pyCommaFixed0 (x : Rat) : String :=
  let r := roundHalfEven x
  (if r < 0 then "-" else "") ++ commaGroupNat r.natAbs

/-- Python `f"{n:,}"` for an int. -/
def pyCommaInt (n : Int) : String :=
  (if n < 0 then "-" else "") ++ commaGroupNat n.natAbs

/-! ## RulesEngine (backend/app/services/rules_engine.py) -/

/-- 2026 conforming loan limits used as the engine defaults
(`CURRENT_BASE_LIMIT`, `CURRENT_HIGH_COST_LIMIT`). -/
def CURRENT_BASE_LIMIT : Int := 832750

/-- High-cost area conforming limit for 2026. -/
def CURRENT_HIGH_COST_LIMIT : Int := 1249125

/-- `HOMEREADY_PROPERTY_TYPES` set literal from rules_engine.py. -/
def HOMEREADY_PROPERTY_TYPES : List String :=
  ["single_family", "condo", "pud", "2_unit", "3_unit", "4_unit",
   "manufactured", "coop"]

/-- `HOME_POSSIBLE_PROPERTY_TYPES` set literal from rules_engine.py. -/
def HOME_POSSIBLE_PROPERTY_TYPES : List String :=
  ["single_family", "condo", "coop", "manufactured", "2_unit", "3_unit",
   "4_unit"]

/-- Python `", ".join(sorted(HOMEREADY_PROPERTY_TYPES))` (the set sorted
lexicographically, digits before letters). -/
def homereadyTypesJoined : String :=
  "2_unit, 3_unit, 4_unit, condo, coop, manufactured, pud, single_family"

/-- Python `", ".join(sorted(HOME_POSSIBLE_PROPERTY_TYPES))`. -/
def homePossibleTypesJoined : String :=
  "2_unit, 3_unit, 4_unit, condo, coop, manufactured, single_family"

/-- The `RulesEngine` class configuration (constructor arguments with their
defaults). -/
structure RulesEngine where
  base_loan_limit : Int := CURRENT_BASE_LIMIT
  high_cost_limit : Int := CURRENT_HIGH_COST_LIMIT
deriving Repr, DecidableEq

namespace RulesEngine

/-- `RulesEngine.calculate_ltv`: `loan_amount / property_value`, returning
1.0 when `property_value <= 0` instead of dividing. -/
def calculate_ltv (loan_amount property_value : Rat) : Rat :=
  if property_value ≤ 0 then 1
  else loan_amount / property_value

/-- `RulesEngine.calculate_dti`: estimated monthly P&I at a 6% annual rate
over `loan_term_years`, plus a 1.5%-of-value-per-year taxes/insurance
estimate, plus existing monthly debt, divided by monthly income; 1.0 when
monthly income is nonpositive.  (The `monthly_rate > 0` test in the source
is always true since the rate is the constant 0.06/12; the dead `else`
branch divides by the number of payments.) -/
def calculate_dti (s : LoanScenario) : Rat :=
  let monthly_income := s.annual_income / 12
  if monthly_income ≤ 0 then 1
  else
    let estimated_rate : Rat := 6 / 100
    let monthly_rate := estimated_rate / 12
    let num_payments : Int := s.loan_term_years * 12
    let monthly_pi :=
      if 0 < monthly_rate then
        s.loan_amount * (monthly_rate * (1 + monthly_rate) ^ num_payments) /
          ((1 + monthly_rate) ^ num_payments - 1)
      else s.loan_amount / (num_payments : Rat)
    let monthly_taxes_insurance := s.property_value * (15 / 1000) / 12
    let monthly_housing := monthly_pi + monthly_taxes_insurance
    let total_monthly_debt := monthly_housing + s.monthly_debt_payments
    total_monthly_debt / monthly_income

/-- The body of `check_homeready`: the violations list accumulated by the
seven `if` checks, in source order (append-only accumulation is embedded as
a concatenation of conditional singletons). -/
def homeready_violations (e : RulesEngine) (s : LoanScenario) (ltv dti : Rat) :
    List RuleViolation :=
  -- Rule 1: minimum credit score 620
  (if s.credit_score < 620 then
    [{ rule_name := "min_credit_score",
       rule_description := "Minimum credit score requirement",
       actual_value := toString s.credit_score,
       required_value := ">= 620",
       citation := "Fannie Mae Selling Guide B5-6-02" }] else []) ++
  -- Rule 2: maximum DTI 50%
  (if dti > 50/100 then
    [{ rule_name := "max_dti",
       rule_description := "Maximum debt-to-income ratio",
       actual_value := pyFixed 1 (dti * 100) ++ "%",
       required_value := "<= " ++ pyFixed 0 ((50:Rat)/100 * 100) ++ "%",
       citation := "Fannie Mae Selling Guide B5-6-02" }] else []) ++
  -- Rule 3: maximum LTV (95% for manufactured or multi-unit, else 97%)
  (let mx := if s.property_type = "manufactured" then ((95:Rat)/100, "Fannie Mae Selling Guide B5-6-01 (Manufactured Housing)")
    else if s.property_type = "2_unit" ∨ s.property_type = "3_unit" ∨ s.property_type = "4_unit" then
      ((95:Rat)/100, "Fannie Mae Selling Guide B5-6-01 (Multi-unit)")
    else ((97:Rat)/100, "Fannie Mae Selling Guide B5-6-01")
   if ltv > mx.1 then
    [{ rule_name := "max_ltv",
       rule_description := "Maximum loan-to-value ratio",
       actual_value := pyFixed 1 (ltv * 100) ++ "%",
       required_value := "<= " ++ pyFixed 0 (mx.1 * 100) ++ "%",
       citation := mx.2 }] else []) ++
  -- Rule 4: occupancy must be primary
  (if pyLower s.occupancy ≠ "primary" then
    [{ rule_name := "occupancy",
       rule_description := "Property must be primary residence",
       actual_value := s.occupancy,
       required_value := "primary",
       citation := "Fannie Mae Selling Guide B5-6-01" }] else []) ++
  -- Rule 5: eligible property type
  (if pyLower s.property_type ∉ HOMEREADY_PROPERTY_TYPES then
    [{ rule_name := "property_type",
       rule_description := "Eligible property type",
       actual_value := s.property_type,
       required_value := homereadyTypesJoined,
       citation := "Fannie Mae Selling Guide B5-6-01" }] else []) ++
  -- Rule 6: conforming loan limit
  (if s.loan_amount > (e.high_cost_limit : Rat) then
    [{ rule_name := "loan_limit",
       rule_description := "Maximum conforming loan amount",
       actual_value := "$" ++ pyCommaFixed0 s.loan_amount,
       required_value := "<= $" ++ pyCommaInt e.high_cost_limit,
       citation := "Fannie Mae Selling Guide B5-6-01, FHFA Loan Limits" }] else []) ++
  -- Rule 7: loan term bound for high LTV
  (if ltv > 95/100 ∧ s.loan_term_years > 30 then
    [{ rule_name := "loan_term",
       rule_description := "Maximum loan term for high LTV",
       actual_value := toString s.loan_term_years ++ " years",
       required_value := "<= 30 years",
       citation := "Fannie Mae Selling Guide B5-6-01" }] else [])

/-- `RulesEngine.check_homeready`, with the `Optional` pre-computed ratio
arguments modelled as `Option Rat` (recomputed when `none`, as the source
recomputes when `None`). -/
def check_homeready (e : RulesEngine) (s : LoanScenario)
    (ltvOpt dtiOpt : Option Rat) : ProductResult :=
  let ltv := ltvOpt.getD (calculate_ltv s.loan_amount s.property_value)
  let dti := dtiOpt.getD (calculate_dti s)
  let violations := homeready_violations e s ltv dti
  { product_name := "HomeReady", gse := "fannie_mae",
    eligible := violations.length == 0, violations := violations }

/-- The Home Possible minimum credit score: 700 for 2-4 unit, 680 for
manufactured homes, 660 otherwise (source rule 1 of
`check_home_possible`). -/
def homePossibleMinCredit (s : LoanScenario) : Int × String :=
  if s.property_type = "2_unit" ∨ s.property_type = "3_unit" ∨ s.property_type = "4_unit" then
    (700, "Freddie Mac Guide 4501.5 (2-4 unit)")
  else if s.property_type = "manufactured" then
    (680, "Freddie Mac Guide 4501.5 (Manufactured Home)")
  else (660, "Freddie Mac Guide 4501.5")

/-- The Home Possible maximum LTV: 95% for manufactured or multi-unit,
97% otherwise (source rule 3 of `check_home_possible`). -/
def homePossibleMaxLtv (s : LoanScenario) : Rat × String :=
  if s.property_type = "manufactured" then
    (95/100, "Freddie Mac Guide 4501.7, 5703.8 (Manufactured Home)")
  else if s.property_type = "2_unit" ∨ s.property_type = "3_unit" ∨ s.property_type = "4_unit" then
    (95/100, "Freddie Mac Guide 4501.7 (Multi-unit)")
  else (97/100, "Freddie Mac Guide 4501.7")

/-- The body of `check_home_possible`: the violations list accumulated by
its six `if` checks, in source order. -/
def home_possible_violations (e : RulesEngine) (s : LoanScenario)
    (ltv dti : Rat) : List RuleViolation :=
  -- Rule 1: minimum credit score (raised floor for 2-4 unit / manufactured)
  (if s.credit_score < (homePossibleMinCredit s).1 then
    [{ rule_name := "min_credit_score",
       rule_description := "Minimum credit score requirement",
       actual_value := toString s.credit_score,
       required_value := ">= " ++ toString (homePossibleMinCredit s).1,
       citation := (homePossibleMinCredit s).2 }] else []) ++
  -- Rule 2: maximum DTI 45%
  (if dti > 45/100 then
    [{ rule_name := "max_dti",
       rule_description := "Maximum debt-to-income ratio",
       actual_value := pyFixed 1 (dti * 100) ++ "%",
       required_value := "<= " ++ pyFixed 0 ((45:Rat)/100 * 100) ++ "%",
       citation := "Freddie Mac Guide 4501.5, 5401.2" }] else []) ++
  -- Rule 3: maximum LTV
  (if ltv > (homePossibleMaxLtv s).1 then
    [{ rule_name := "max_ltv",
       rule_description := "Maximum loan-to-value ratio",
       actual_value := pyFixed 1 (ltv * 100) ++ "%",
       required_value := "<= " ++ pyFixed 0 ((homePossibleMaxLtv s).1 * 100) ++ "%",
       citation := (homePossibleMaxLtv s).2 }] else []) ++
  -- Rule 4: occupancy must be primary
  (if pyLower s.occupancy ≠ "primary" then
    [{ rule_name := "occupancy",
       rule_description := "Property must be primary residence",
       actual_value := s.occupancy,
       required_value := "primary",
       citation := "Freddie Mac Guide 4501.4" }] else []) ++
  -- Rule 5: eligible property type
  (if pyLower s.property_type ∉ HOME_POSSIBLE_PROPERTY_TYPES then
    [{ rule_name := "property_type",
       rule_description := "Eligible property type",
       actual_value := s.property_type,
       required_value := homePossibleTypesJoined,
       citation := "Freddie Mac Guide 4501.3" }] else []) ++
  -- Rule 6: conforming loan limit
  (if s.loan_amount > (e.high_cost_limit : Rat) then
    [{ rule_name := "loan_limit",
       rule_description := "Maximum conforming loan amount",
       actual_value := "$" ++ pyCommaFixed0 s.loan_amount,
       required_value := "<= $" ++ pyCommaInt e.high_cost_limit,
       citation := "Freddie Mac Guide 4203.1, FHFA Loan Limits" }] else [])

/-- `RulesEngine.check_home_possible`. -/
def check_home_possible (e : RulesEngine) (s : LoanScenario)
    (ltvOpt dtiOpt : Option Rat) : ProductResult :=
  let ltv := ltvOpt.getD (calculate_ltv s.loan_amount s.property_value)
  let dti := dtiOpt.getD (calculate_dti s)
  let violations := home_possible_violations e s ltv dti
  { product_name := "Home Possible", gse := "freddie_mac",
    eligible := violations.length == 0, violations := violations }

end RulesEngine

/-! ## Shared list helpers -/

/-- Counting an element in a conditional singleton. -/
theorem count_ite_singleton {α : Type} [DecidableEq α] (c : Prop) [Decidable c]
    (v w : α) : (if c then [v] else []).count w = if c ∧ w = v then 1 else 0 := by
  by_cases hc : c
  · by_cases hw : w = v
    · simp [hc, hw]
    · simp [hc, hw]
  · simp [hc]

/-- A conditional singleton, mapped, is a sublist of the mapped singleton. -/
theorem map_ite_singleton_sublist {α β : Type} (c : Prop) [Decidable c]
    (v : α) (f : α → β) : ((if c then [v] else []).map f).Sublist [f v] := by
  split <;> simp

/-- A `ProductResult` built the way both product checks build it (the
`eligible` flag is `len(violations) == 0`) is eligible iff the violations
list is empty. -/
theorem mk_eligible_iff (n g : String) (l : List RuleViolation) :
    ((ProductResult.mk n g (l.length == 0) l).eligible = true ↔
      (ProductResult.mk n g (l.length == 0) l).violations = []) := by
  cases l <;> simp

/-! ## Claim C4: eligible iff no violations -/

/-- C4: for every scenario (and every optionally pre-computed LTV/DTI pair,
and every engine configuration), the `ProductResult` returned by
`check_homeready` and by `check_home_possible` has `eligible = true` if and
only if its violations list is empty. -/
theorem c4_eligible_iff_no_violations (e : RulesEngine) (s : LoanScenario)
    (ltvOpt dtiOpt : Option Rat) :
    ((RulesEngine.check_homeready e s ltvOpt dtiOpt).eligible = true ↔
      (RulesEngine.check_homeready e s ltvOpt dtiOpt).violations = []) ∧
    ((RulesEngine.check_home_possible e s ltvOpt dtiOpt).eligible = true ↔
      (RulesEngine.check_home_possible e s ltvOpt dtiOpt).violations = []) :=
  ⟨mk_eligible_iff _ _ _, mk_eligible_iff _ _ _⟩

/-! ## Claim C5: the per-product checklists

The spec describes each product check as exactly six checks in a fixed
order; the definitions below spell out that checklist, following the
spec's words, so that it can be compared with the source definitions
(`home_possible_violations`, `homeready_violations`). -/

/-- The six rule names the spec lists for a product check, in the fixed
order it gives: minimum credit score, maximum DTI, maximum LTV,
occupancy-must-be-primary, property-type membership, conforming loan
limit. -/
def specSixRuleNames : List String :=
  ["min_credit_score", "max_dti", "max_ltv", "occupancy", "property_type",
   "loan_limit"]

/-- The checklist the spec describes, instantiated for Home Possible: six
checks in the fixed order, one `RuleViolation` per failing check carrying
the literal actual and required values, the credit floor raised for
multi-unit and manufactured housing, the LTV ceiling lowered for
manufactured/multi-unit, and no violations from any other rule. -/
def specHomePossibleChecklist (e : RulesEngine) (s : LoanScenario)
    (ltv dti : Rat) : List RuleViolation :=
  (if s.credit_score < (RulesEngine.homePossibleMinCredit s).1 then
    [{ rule_name := "min_credit_score",
       rule_description := "Minimum credit score requirement",
       actual_value := toString s.credit_score,
       required_value := ">= " ++ toString (RulesEngine.homePossibleMinCredit s).1,
       citation := (RulesEngine.homePossibleMinCredit s).2 }] else []) ++
  (if dti > 45/100 then
    [{ rule_name := "max_dti",
       rule_description := "Maximum debt-to-income ratio",
       actual_value := pyFixed 1 (dti * 100) ++ "%",
       required_value := "<= " ++ pyFixed 0 ((45:Rat)/100 * 100) ++ "%",
       citation := "Freddie Mac Guide 4501.5, 5401.2" }] else []) ++
  (if ltv > (RulesEngine.homePossibleMaxLtv s).1 then
    [{ rule_name := "max_ltv",
       rule_description := "Maximum loan-to-value ratio",
       actual_value := pyFixed 1 (ltv * 100) ++ "%",
       required_value := "<= " ++ pyFixed 0 ((RulesEngine.homePossibleMaxLtv s).1 * 100) ++ "%",
       citation := (RulesEngine.homePossibleMaxLtv s).2 }] else []) ++
  (if pyLower s.occupancy ≠ "primary" then
    [{ rule_name := "occupancy",
       rule_description := "Property must be primary residence",
       actual_value := s.occupancy,
       required_value := "primary",
       citation := "Freddie Mac Guide 4501.4" }] else []) ++
  (if pyLower s.property_type ∉ HOME_POSSIBLE_PROPERTY_TYPES then
    [{ rule_name := "property_type",
       rule_description := "Eligible property type",
       actual_value := s.property_type,
       required_value := homePossibleTypesJoined,
       citation := "Freddie Mac Guide 4501.3" }] else []) ++
  (if s.loan_amount > (e.high_cost_limit : Rat) then
    [{ rule_name := "loan_limit",
       rule_description := "Maximum conforming loan amount",
       actual_value := "$" ++ pyCommaFixed0 s.loan_amount,
       required_value := "<= $" ++ pyCommaInt e.high_cost_limit,
       citation := "Freddie Mac Guide 4203.1, FHFA Loan Limits" }] else [])

/-- The HomeReady maximum LTV selection (95% for manufactured or
multi-unit, else 97%), named for use in the amended checklist. -/
def specHomeReadyMaxLtv (s : LoanScenario) : Rat × String :=
  if s.property_type = "manufactured" then
    (95/100, "Fannie Mae Selling Guide B5-6-01 (Manufactured Housing)")
  else if s.property_type = "2_unit" ∨ s.property_type = "3_unit" ∨ s.property_type = "4_unit" then
    (95/100, "Fannie Mae Selling Guide B5-6-01 (Multi-unit)")
  else (97/100, "Fannie Mae Selling Guide B5-6-01")

/-- The checklist the spec describes, instantiated for HomeReady, AMENDED
with the seventh check that the source actually performs: a loan-term
bound (`<= 30 years`) when the LTV exceeds 95%.  The spec's claim of
exactly six checks fails on HomeReady because of this seventh check. -/
def specHomeReadyChecklistAmended (e : RulesEngine) (s : LoanScenario)
    (ltv dti : Rat) : List RuleViolation :=
  (if s.credit_score < 620 then
    [{ rule_name := "min_credit_score",
       rule_description := "Minimum credit score requirement",
       actual_value := toString s.credit_score,
       required_value := ">= 620",
       citation := "Fannie Mae Selling Guide B5-6-02" }] else []) ++
  (if dti > 50/100 then
    [{ rule_name := "max_dti",
       rule_description := "Maximum debt-to-income ratio",
       actual_value := pyFixed 1 (dti * 100) ++ "%",
       required_value := "<= " ++ pyFixed 0 ((50:Rat)/100 * 100) ++ "%",
       citation := "Fannie Mae Selling Guide B5-6-02" }] else []) ++
  (if ltv > (specHomeReadyMaxLtv s).1 then
    [{ rule_name := "max_ltv",
       rule_description := "Maximum loan-to-value ratio",
       actual_value := pyFixed 1 (ltv * 100) ++ "%",
       required_value := "<= " ++ pyFixed 0 ((specHomeReadyMaxLtv s).1 * 100) ++ "%",
       citation := (specHomeReadyMaxLtv s).2 }] else []) ++
  (if pyLower s.occupancy ≠ "primary" then
    [{ rule_name := "occupancy",
       rule_description := "Property must be primary residence",
       actual_value := s.occupancy,
       required_value := "primary",
       citation := "Fannie Mae Selling Guide B5-6-01" }] else []) ++
  (if pyLower s.property_type ∉ HOMEREADY_PROPERTY_TYPES then
    [{ rule_name := "property_type",
       rule_description := "Eligible property type",
       actual_value := s.property_type,
       required_value := homereadyTypesJoined,
       citation := "Fannie Mae Selling Guide B5-6-01" }] else []) ++
  (if s.loan_amount > (e.high_cost_limit : Rat) then
    [{ rule_name := "loan_limit",
       rule_description := "Maximum conforming loan amount",
       actual_value := "$" ++ pyCommaFixed0 s.loan_amount,
       required_value := "<= $" ++ pyCommaInt e.high_cost_limit,
       citation := "Fannie Mae Selling Guide B5-6-01, FHFA Loan Limits" }] else []) ++
  (if ltv > 95/100 ∧ s.loan_term_years > 30 then
    [{ rule_name := "loan_term",
       rule_description := "Maximum loan term for high LTV",
       actual_value := toString s.loan_term_years ++ " years",
       required_value := "<= 30 years",
       citation := "Fannie Mae Selling Guide B5-6-01" }] else [])

/-- The scenario of end-to-end example A of the spec (both products
eligible); used as the base input for concrete counterexamples and
witnesses. -/
def exampleScenarioA : LoanScenario :=
  { credit_score := 720, annual_income := 85000, is_first_time_buyer := true,
    loan_amount := 350000, property_value := 400000, loan_term_years := 30,
    monthly_debt_payments := 400, property_type := "single_family",
    property_state := "CA", property_county := "Los Angeles",
    occupancy := "primary" }

/-- C5 counterexample: on a scenario with a 40-year term and an LTV of 96%,
`check_homeready` emits a violation whose rule name, `loan_term`, is not
among the six rules the claim allows, so the claim that each product check
evaluates exactly the six listed checks (and emits no violations from any
other rule) is false as stated. -/
theorem c5_counterexample :
    ((RulesEngine.check_homeready {} { exampleScenarioA with loan_term_years := 40 }
        (some (96/100)) (some (3/10))).violations.map RuleViolation.rule_name)
      = ["loan_term"] ∧
    "loan_term" ∉ specSixRuleNames := by decide

/-- The rule names of the Home Possible violations form a subsequence of
the six fixed rule names (order preserved, at most one per rule). -/
theorem hp_names_sublist (e : RulesEngine) (s : LoanScenario) (ltv dti : Rat) :
    ((RulesEngine.home_possible_violations e s ltv dti).map
      RuleViolation.rule_name).Sublist specSixRuleNames := by
  unfold RulesEngine.home_possible_violations
  simp only [List.map_append]
  show List.Sublist _
    (((((["min_credit_score"] ++ ["max_dti"]) ++ ["max_ltv"]) ++ ["occupancy"]) ++
      ["property_type"]) ++ ["loan_limit"])
  refine List.Sublist.append (List.Sublist.append (List.Sublist.append
    (List.Sublist.append (List.Sublist.append ?_ ?_) ?_) ?_) ?_) ?_ <;>
    exact map_ite_singleton_sublist _ _ _

/-- The rule names of the HomeReady violations form a subsequence of the
six fixed rule names followed by the seventh rule, `loan_term`. -/
theorem hr_names_sublist (e : RulesEngine) (s : LoanScenario) (ltv dti : Rat) :
    ((RulesEngine.homeready_violations e s ltv dti).map
      RuleViolation.rule_name).Sublist (specSixRuleNames ++ ["loan_term"]) := by
  unfold RulesEngine.homeready_violations
  simp only [List.map_append]
  show List.Sublist _
    ((((((["min_credit_score"] ++ ["max_dti"]) ++ ["max_ltv"]) ++ ["occupancy"]) ++
      ["property_type"]) ++ ["loan_limit"]) ++ ["loan_term"])
  refine List.Sublist.append (List.Sublist.append (List.Sublist.append
    (List.Sublist.append (List.Sublist.append (List.Sublist.append ?_ ?_) ?_) ?_) ?_) ?_) ?_
  case refine_3 =>
    -- the LTV segment carries the selected ceiling through a local binding
    exact map_ite_singleton_sublist _ _ _
  all_goals exact map_ite_singleton_sublist _ _ _

/-- C5 amended: `check_home_possible` performs exactly the six listed
checks, in the fixed order, emitting one `RuleViolation` with the literal
actual/required values per failing check and nothing else; `check_homeready`
performs those six checks in the same order plus a seventh loan-term check
(LTV above 95% requires a term of at most 30 years).  Stated for every
engine configuration, scenario, and optionally pre-computed ratio pair. -/
theorem c5_product_checks_amended (e : RulesEngine) (s : LoanScenario)
    (ltvOpt dtiOpt : Option Rat) :
    ((RulesEngine.check_home_possible e s ltvOpt dtiOpt).violations =
      specHomePossibleChecklist e s
        (ltvOpt.getD (RulesEngine.calculate_ltv s.loan_amount s.property_value))
        (dtiOpt.getD (RulesEngine.calculate_dti s))) ∧
    (((RulesEngine.check_home_possible e s ltvOpt dtiOpt).violations.map
        RuleViolation.rule_name).Sublist specSixRuleNames) ∧
    ((RulesEngine.check_homeready e s ltvOpt dtiOpt).violations =
      specHomeReadyChecklistAmended e s
        (ltvOpt.getD (RulesEngine.calculate_ltv s.loan_amount s.property_value))
        (dtiOpt.getD (RulesEngine.calculate_dti s))) ∧
    (((RulesEngine.check_homeready e s ltvOpt dtiOpt).violations.map
        RuleViolation.rule_name).Sublist (specSixRuleNames ++ ["loan_term"])) := by
  exact ⟨rfl, hp_names_sublist e s _ _, rfl, hr_names_sublist e s _ _⟩

/-! ## Claim C8: calculate_ltv -/

/-- C8: for positive property value, `calculate_ltv` is the quotient
`loan_amount / property_value`; for nonpositive property value (including
zero) it returns exactly 1.0 instead of dividing. -/
theorem c8_calculate_ltv_spec (loan value : Rat) :
    (0 < value → RulesEngine.calculate_ltv loan value = loan / value) ∧
    (value ≤ 0 → RulesEngine.calculate_ltv loan value = 1) := by
  constructor <;> intro h <;> unfold RulesEngine.calculate_ltv
  · rw [if_neg (by linarith)]
  · rw [if_pos h]

/-- Witness for C8 at the concrete pair (350000, 400000) and at property
value 0. -/
theorem c8_calculate_ltv_spec_witness :
    RulesEngine.calculate_ltv 350000 400000 = 350000 / 400000 ∧
    RulesEngine.calculate_ltv 350000 0 = 1 :=
  ⟨(c8_calculate_ltv_spec 350000 400000).1 (by norm_num),
   (c8_calculate_ltv_spec 350000 0).2 (by norm_num)⟩

/-! ## FixFinderService: the scenario simulator
(backend/app/services/fix_finder_service.py, `_execute_simulate_scenario`) -/

namespace FixFinder

/-- models/fix_finder.py `SimulationResult` (pydantic). -/
structure SimulationResult where
  scenario_description : String
  parameter_changes : List (String × String)
  homeready_eligible : Bool
  home_possible_eligible : Bool
  violations_resolved : List String
  remaining_violations : List String
  feasibility : String
deriving Repr, DecidableEq

/-- Python `list(set(l))` for a list of strings, modelled as
first-occurrence deduplication.  (CPython's set iteration order is
implementation-defined; no claim depends on the order of this list.) -/
def pyListSet (l : List String) : List String :=
  l.foldl (fun acc x => if x ∈ acc then acc else acc ++ [x]) []

/-- The view of `scenario.model_dump()` that `_execute_simulate_scenario`
reads back: the five numeric keys.  (The dump holds all eleven keys and the
source would also overwrite a non-numeric key named in `changes`, but no
such entry is ever read back — the remaining reads go through the original
`scenario` object — so the observable behaviour is fully captured by these
five fields.) -/
structure SimOverridden where
  credit_score : Rat
  annual_income : Rat
  loan_amount : Rat
  property_value : Rat
  monthly_debt_payments : Rat
deriving Repr, DecidableEq

/-- The override-application loop of `_execute_simulate_scenario`:
`for key, value in changes.items(): if key in scenario_data: ...`. -/
def applyChanges (s : LoanScenario) (changes : List (String × Rat)) :
    SimOverridden :=
  changes.foldl (fun d kv =>
    if kv.1 = "credit_score" then { d with credit_score := kv.2 }
    else if kv.1 = "annual_income" then { d with annual_income := kv.2 }
    else if kv.1 = "loan_amount" then { d with loan_amount := kv.2 }
    else if kv.1 = "property_value" then { d with property_value := kv.2 }
    else if kv.1 = "monthly_debt_payments" then { d with monthly_debt_payments := kv.2 }
    else d)
    { credit_score := (s.credit_score : Rat), annual_income := s.annual_income,
      loan_amount := s.loan_amount, property_value := s.property_value,
      monthly_debt_payments := s.monthly_debt_payments }

/-- The simulator's LTV line: `modified_loan_amount / modified_property_value`
(no guard; the Python line raises ZeroDivisionError when the denominator is
zero, which the caller of this definition checks). -/
def simulateLtv (d : SimOverridden) : Rat :=
  d.loan_amount / d.property_value

/-- The simulator's rough mortgage-payment estimate: 6% annual rate over a
hard-coded 30-year term (the `rate > 0` test is always true; the dead
`else` branch divides by the payment count). -/
def mortgagePaymentSim (loan : Rat) : Rat :=
  let rate : Rat := 6 / 100 / 12
  let n : Int := 30 * 12
  if 0 < rate then loan * (rate * (1 + rate) ^ n) / ((1 + rate) ^ n - 1)
  else loan / (n : Rat)

/-- The simulator's DTI line:
`(modified_debt + mortgage_payment) / monthly_income` (no taxes/insurance
term; raises in Python when the monthly income is zero, which the caller of
this definition checks). -/
def simulateDti (d : SimOverridden) : Rat :=
  (d.monthly_debt_payments + mortgagePaymentSim d.loan_amount) /
    (d.annual_income / 12)

/-- The simulator's flat threshold re-checks: violation-name lists for
HomeReady and Home Possible, in source append order (credit, LTV, DTI,
occupancy). -/
def simulateViolations (scenario : LoanScenario) (d : SimOverridden)
    (ltv dti : Rat) : List String × List String :=
  ((if d.credit_score < 620 then ["min_credit_score"] else []) ++
   (if ltv > 97/100 then ["max_ltv"] else []) ++
   (if dti > 50/100 then ["max_dti"] else []) ++
   (if scenario.occupancy ≠ "primary" then ["occupancy"] else []),
   (if d.credit_score < 660 then ["min_credit_score"] else []) ++
   (if ltv > 97/100 then ["max_ltv"] else []) ++
   (if dti > 45/100 then ["max_dti"] else []) ++
   (if scenario.occupancy ≠ "primary" then ["occupancy"] else []))

/-- The feasibility banding on the summed absolute override magnitudes. -/
def simulateFeasibility (changes : List (String × Rat)) : String :=
  let total := (changes.map (fun kv => |kv.2|)).sum
  if total < 5000 then "easy"
  else if total < 20000 then "moderate"
  else if total < 50000 then "hard"
  else "very_hard"

/-- `FixFinderService._execute_simulate_scenario`.  The first component is
the Python return value (or the exception the Python code raises: dividing
by an overridden property value of zero, or by a zero monthly income); the
second component is the state of the caller's `scenario` object after the
call — the source copies the scenario with `model_dump()` and writes only
to the copy, so the object comes back untouched on every path.  The
human-readable `result_summary` is assembled from the same parts as the
source f-string (its exact layout is irrelevant to every claim). -/
def execute_simulate_scenario (scenario : LoanScenario)
    (changes : List (String × Rat)) (description : String) :
    Except String (SimulationResult × String) × LoanScenario :=
  let d := applyChanges scenario changes
  let result : Except String (SimulationResult × String) :=
    if d.property_value = 0 then
      Except.error "ZeroDivisionError: float division by zero"
    else if d.annual_income / 12 = 0 then
      Except.error "ZeroDivisionError: float division by zero"
    else
      let modified_ltv := simulateLtv d
      let modified_dti := simulateDti d
      let viols := simulateViolations scenario d modified_ltv modified_dti
      let feasibility := simulateFeasibility changes
      let param_changes := changes.map (fun kv => (kv.1, pyCommaFixed0 kv.2))
      let simulation : SimulationResult :=
        { scenario_description := description,
          parameter_changes := param_changes,
          homeready_eligible := viols.1.length == 0,
          home_possible_eligible := viols.2.length == 0,
          violations_resolved := [],
          remaining_violations := pyListSet (viols.1 ++ viols.2),
          feasibility := feasibility }
      let hr_status := if simulation.homeready_eligible then "Eligible"
        else "Ineligible (" ++ String.intercalate ", " viols.1 ++ ")"
      let hp_status := if simulation.home_possible_eligible then "Eligible"
        else "Ineligible (" ++ String.intercalate ", " viols.2 ++ ")"
      Except.ok (simulation,
        "Simulation: " ++ description ++
        "\nModified LTV: " ++ pyFixed 1 (modified_ltv * 100) ++ "%" ++
        ", Modified DTI: " ++ pyFixed 1 (modified_dti * 100) ++ "%" ++
        "\nHomeReady: " ++ hr_status ++
        "\nHome Possible: " ++ hp_status ++
        "\nFeasibility: " ++ feasibility)
  (result, scenario)

end FixFinder

/-! ## Claim C7: the simulator never mutates its input scenario -/

/-- C7: for every scenario, overrides map, and description string, the
caller's `LoanScenario` is unchanged by `_execute_simulate_scenario` —
stated field by field and for the record as a whole, on every path
(including the raising paths). -/
theorem c7_simulate_no_mutation (scenario : LoanScenario)
    (changes : List (String × Rat)) (description : String) :
    (FixFinder.execute_simulate_scenario scenario changes description).2.credit_score
        = scenario.credit_score ∧
    (FixFinder.execute_simulate_scenario scenario changes description).2.annual_income
        = scenario.annual_income ∧
    (FixFinder.execute_simulate_scenario scenario changes description).2.is_first_time_buyer
        = scenario.is_first_time_buyer ∧
    (FixFinder.execute_simulate_scenario scenario changes description).2.loan_amount
        = scenario.loan_amount ∧
    (FixFinder.execute_simulate_scenario scenario changes description).2.property_value
        = scenario.property_value ∧
    (FixFinder.execute_simulate_scenario scenario changes description).2.loan_term_years
        = scenario.loan_term_years ∧
    (FixFinder.execute_simulate_scenario scenario changes description).2.monthly_debt_payments
        = scenario.monthly_debt_payments ∧
    (FixFinder.execute_simulate_scenario scenario changes description).2.property_type
        = scenario.property_type ∧
    (FixFinder.execute_simulate_scenario scenario changes description).2.property_state
        = scenario.property_state ∧
    (FixFinder.execute_simulate_scenario scenario changes description).2.property_county
        = scenario.property_county ∧
    (FixFinder.execute_simulate_scenario scenario changes description).2.occupancy
        = scenario.occupancy ∧
    (FixFinder.execute_simulate_scenario scenario changes description).2 = scenario :=
  ⟨rfl, rfl, rfl, rfl, rfl, rfl, rfl, rfl, rfl, rfl, rfl, rfl⟩

/-! ## Claim C3: simulator versus RulesEngine formulas -/

/-- C3 counterexample: on the spec's own example scenario A with an empty
overrides map, the simulator's DTI differs from `RulesEngine.calculate_dti`
applied to the (identical) overridden scenario — the simulator omits the
property-tax/insurance load (here $500/month) that the RulesEngine formula
includes, so the claim that the simulator computes the same DTI values is
false as stated. -/
theorem c3_counterexample :
    FixFinder.simulateDti (FixFinder.applyChanges exampleScenarioA []) ≠
      RulesEngine.calculate_dti exampleScenarioA := by
  intro heq
  unfold FixFinder.simulateDti FixFinder.mortgagePaymentSim FixFinder.applyChanges
    RulesEngine.calculate_dti exampleScenarioA at heq
  simp only [List.foldl_nil] at heq
  norm_num at heq

/-- C3 amended: the simulator's LTV line (`loan / value` on the overridden
values) agrees with `RulesEngine.calculate_ltv` whenever the overridden
property value is positive.  (The DTI and the per-product eligibility
booleans are computed by simplified formulas — no taxes/insurance term,
hard-coded 30-year term, flat 620/660/97%/50%/45% thresholds, no
property-type, loan-limit, or per-property-type adjustments — and can
disagree with `calculate_dti` / `check_homeready` / `check_home_possible`;
see the counterexample.) -/
theorem c3_simulator_ltv_amended (s : LoanScenario)
    (changes : List (String × Rat))
    (hpos : 0 < (FixFinder.applyChanges s changes).property_value) :
    FixFinder.simulateLtv (FixFinder.applyChanges s changes) =
      RulesEngine.calculate_ltv (FixFinder.applyChanges s changes).loan_amount
        (FixFinder.applyChanges s changes).property_value := by
  unfold FixFinder.simulateLtv RulesEngine.calculate_ltv
  rw [if_neg (by linarith)]

/-- Witness for the amended C3 at example scenario A with the override
`property_value := 380000`. -/
theorem c3_simulator_ltv_amended_witness :
    FixFinder.simulateLtv
        (FixFinder.applyChanges exampleScenarioA [("property_value", 380000)]) =
      RulesEngine.calculate_ltv
        (FixFinder.applyChanges exampleScenarioA [("property_value", 380000)]).loan_amount
        (FixFinder.applyChanges exampleScenarioA [("property_value", 380000)]).property_value :=
  c3_simulator_ltv_amended exampleScenarioA [("property_value", 380000)] (by decide)

/-! ## EligibilityReasonerService: retrieval
(backend/app/services/eligibility_reasoner.py,
`retrieve_eligibility_context`) -/

namespace Reasoner

/-- A result dict returned by the vector-search collaborator.  Fields that
the source reads with `dict.get(key, default)` are `Option`s (the default
is applied at the read site, as in the source). -/
structure Chunk where
  id : Option String
  score : Option Rat
  -- the metadata key is called "section" in the source; `section` is a
  -- Lean keyword, hence the suffix
  sectionKey : Option String
  title : Option String
  gse : Option String
  text : Option String
deriving Repr, DecidableEq

/-- models/loan.py `RAGRetrieval` (pydantic). -/
structure RAGRetrieval where
  query : String
  section_id : String
  section_title : String
  gse : String
  relevance_score : Rat
  snippet : String
deriving Repr, DecidableEq

/-- The outcome of one embed-then-query call against the collaborators:
either a ranked chunk list or an exception (caught by `run_query`). -/
inductive QueryOutcome where
  | ok (chunks : List Chunk)
  | failure (msg : String)
deriving Repr, DecidableEq

/-- Python `s.replace("_", " ")` (single-character pattern), over the
character list so that it evaluates in the kernel. -/
def pyReplaceUnderscore (s : String) : String :=
  String.mk (s.data.map (fun c => if c = '_' then ' ' else c))

/-- Python `s[:n]` character truncation. -/
def strTake (n : Nat) (s : String) : String := String.mk (s.data.take n)

/-- The `(category, query, gse_filter)` tuples built from
`ELIGIBILITY_QUERIES`: six categories times two templates, the
`{property_type}` placeholder interpolated with the underscore-to-space
property-type label, the GSE filter chosen by whether the template mentions
HomeReady. -/
def eligibilityQueries (scenario : LoanScenario) :
    List (String × String × String) :=
  let label := pyReplaceUnderscore scenario.property_type
  [("credit_score", "HomeReady minimum credit score requirements eligibility", "fannie_mae"),
   ("credit_score", "Home Possible minimum credit score requirements eligibility", "freddie_mac"),
   ("ltv", "HomeReady maximum LTV loan-to-value ratio requirements " ++ label, "fannie_mae"),
   ("ltv", "Home Possible maximum LTV loan-to-value ratio requirements " ++ label, "freddie_mac"),
   ("dti", "HomeReady maximum DTI debt-to-income ratio requirements", "fannie_mae"),
   ("dti", "Home Possible maximum DTI debt-to-income ratio requirements", "freddie_mac"),
   ("occupancy", "HomeReady occupancy requirements primary residence", "fannie_mae"),
   ("occupancy", "Home Possible occupancy requirements primary residence", "freddie_mac"),
   ("property_type", "HomeReady eligible property types " ++ label, "fannie_mae"),
   ("property_type", "Home Possible eligible property types " ++ label, "freddie_mac"),
   ("income_limit", "HomeReady income limits area median income AMI", "fannie_mae"),
   ("income_limit", "Home Possible income limits area median income AMI", "freddie_mac")]

/-- One tagged result tuple `(category, query, gse_filter, chunk)`. -/
abbrev Tagged := String × String × String × Chunk

/-- The chunk identity used for deduplication: `chunk.get("id", "")`. -/
def chunkIdOf (t : Tagged) : String := t.2.2.2.id.getD ""

/-- `run_query` for every query in the batch: a failing query is caught and
contributes an empty result list; a successful one contributes its chunks
tagged with the query tuple.  The collaborator behaviour is the oracle
`beh`, indexed by the query's position in the batch. -/
def runQueryResults (queries : List (String × String × String))
    (beh : Nat → QueryOutcome) : List (List Tagged) :=
  queries.enum.map (fun iq =>
    match beh iq.1 with
    | QueryOutcome.ok chunks => chunks.map (fun c => (iq.2.1, iq.2.2.1, iq.2.2.2, c))
    | QueryOutcome.failure _ => [])

/-- The field values handed to the `RAGRetrieval` pydantic constructor for
one kept chunk (the `metadata.get` defaults, the `min(score, 1.0)` cap and
the 300-character snippet truncation of the source). -/
def ragFieldsOfTagged (t : Tagged) : RAGRetrieval :=
  let chunk := t.2.2.2
  { query := t.2.1,
    section_id := chunk.sectionKey.getD (chunk.id.getD ""),
    section_title := chunk.title.getD "GSE Guide Section",
    gse := chunk.gse.getD t.2.2.1,
    relevance_score := min (chunk.score.getD (1/2)) 1,
    snippet := strTake 300 (chunk.text.getD "") }

/-- The `RAGRetrieval(...)` construction of the dedup loop body: pydantic
validates the fields in declaration order — `gse` against the Literal
`fannie_mae`/`freddie_mac`, then `relevance_score` against `ge=0, le=1` —
and raises ValidationError on a violation (the construction is not inside
any `try`, so the error aborts the whole batch). -/
def convertTagged (t : Tagged) : Except String RAGRetrieval :=
  let r := ragFieldsOfTagged t
  if r.gse = "fannie_mae" ∨ r.gse = "freddie_mac" then
    if 0 ≤ r.relevance_score ∧ r.relevance_score ≤ 1 then Except.ok r
    else Except.error "ValidationError: relevance_score must be between 0 and 1"
  else Except.error "ValidationError: gse must be fannie_mae or freddie_mac"

/-- The accumulator of the flatten-and-deduplicate loop. -/
structure RetrieveAcc where
  seen_ids : List String
  raw_chunks : List Chunk
  rag_retrievals : List RAGRetrieval
deriving Repr, DecidableEq

/-- The flatten-and-deduplicate `for` loop: skip a chunk whose id was seen;
otherwise record its id, append the raw chunk, and construct its
`RAGRetrieval` — a ValidationError there propagates out of the loop (the
partially built accumulator is discarded with the frame). -/
def dedupLoop (acc : RetrieveAcc) : List Tagged → Except String RetrieveAcc
  | [] => Except.ok acc
  | t :: rest =>
    if chunkIdOf t ∈ acc.seen_ids then dedupLoop acc rest
    else
      match convertTagged t with
      | Except.error e => Except.error e
      | Except.ok r =>
        dedupLoop { seen_ids := acc.seen_ids ++ [chunkIdOf t],
                    raw_chunks := acc.raw_chunks ++ [t.2.2.2],
                    rag_retrievals := acc.rag_retrievals ++ [r] } rest

/-- The descending-by-relevance-score comparison used by the final sort
(`sort(key=relevance_score, reverse=True)`; Python's sort is stable, as is
`List.mergeSort`). -/
def relGe (a b : RAGRetrieval) : Bool :=
  decide (b.relevance_score ≤ a.relevance_score)

/-- `EligibilityReasonerService.retrieve_eligibility_context`: fan out the
twelve queries (each outcome given by the oracle `beh`), flatten,
deduplicate by chunk id (first occurrence wins, each kept chunk passing
the `RAGRetrieval` pydantic validation — a failing one raises and aborts
the batch), sort the `RAGRetrieval` list descending by relevance score and
truncate it to 12.  Returns `(raw_chunks, rag_retrievals)` on success; the
wall-clock retrieval time of the source is not modelled. -/
def retrieve_eligibility_context (scenario : LoanScenario)
    (beh : Nat → QueryOutcome) :
    Except String (List Chunk × List RAGRetrieval) :=
  let queries := eligibilityQueries scenario
  let all_results := runQueryResults queries beh
  match dedupLoop ⟨[], [], []⟩ all_results.flatten with
  | Except.error e => Except.error e
  | Except.ok acc =>
    Except.ok (acc.raw_chunks, (acc.rag_retrievals.mergeSort relGe).take 12)

/-! ### Spec-side characterisation of the dedup loop -/

/-- First-occurrence filter, per the spec's words: keep a tagged chunk only
if its id has not been seen before; `seen` is the set of already-seen
ids. -/
def firstOccurrencesFrom (seen : List String) : List Tagged → List Tagged
  | [] => []
  | t :: rest =>
    if chunkIdOf t ∈ seen then firstOccurrencesFrom seen rest
    else t :: firstOccurrencesFrom (seen ++ [chunkIdOf t]) rest

/-- The first occurrence of each chunk id, in merge order. -/
def firstOccurrences (l : List Tagged) : List Tagged :=
  firstOccurrencesFrom [] l

/-- Sequential validation of the kept chunks, aborting at the first
ValidationError — the order in which the loop body raises. -/
def validateAll : List Tagged → Except String (List RAGRetrieval)
  | [] => Except.ok []
  | t :: rest =>
    match convertTagged t with
    | Except.error e => Except.error e
    | Except.ok r =>
      match validateAll rest with
      | Except.error e => Except.error e
      | Except.ok rs => Except.ok (r :: rs)

/-- A successful `RAGRetrieval` construction returns exactly the handed
field values, which then satisfy the validated constraints. -/
theorem convertTagged_ok (t : Tagged) (r : RAGRetrieval)
    (h : convertTagged t = Except.ok r) :
    r = ragFieldsOfTagged t ∧
    (r.gse = "fannie_mae" ∨ r.gse = "freddie_mac") ∧
    0 ≤ r.relevance_score ∧ r.relevance_score ≤ 1 := by
  unfold convertTagged at h
  simp only [] at h
  split at h
  · split at h
    · cases h
      exact ⟨rfl, by assumption, by assumption⟩
    · cases h
  · cases h

/-- A successful sequential validation returns exactly the handed field
values of every kept chunk. -/
theorem validateAll_ok (l : List Tagged) (rs : List RAGRetrieval)
    (h : validateAll l = Except.ok rs) : rs = l.map ragFieldsOfTagged := by
  induction l generalizing rs with
  | nil => cases h; rfl
  | cons t rest ih =>
    unfold validateAll at h
    cases hc : convertTagged t with
    | error e => rw [hc] at h; cases h
    | ok r =>
      rw [hc] at h
      cases hv : validateAll rest with
      | error e => rw [hv] at h; cases h
      | ok rs0 =>
        rw [hv] at h
        cases h
        rw [List.map_cons, ih rs0 hv, (convertTagged_ok t r hc).1]

/-- Every element of a successful sequential validation satisfies the
validated constraints. -/
theorem validateAll_mem (l : List Tagged) (rs : List RAGRetrieval)
    (h : validateAll l = Except.ok rs) :
    ∀ r ∈ rs, (r.gse = "fannie_mae" ∨ r.gse = "freddie_mac") ∧
      0 ≤ r.relevance_score ∧ r.relevance_score ≤ 1 := by
  induction l generalizing rs with
  | nil => cases h; intro r hr; cases hr
  | cons t rest ih =>
    unfold validateAll at h
    cases hc : convertTagged t with
    | error e => rw [hc] at h; cases h
    | ok r0 =>
      rw [hc] at h
      cases hv : validateAll rest with
      | error e => rw [hv] at h; cases h
      | ok rs0 =>
        rw [hv] at h
        cases h
        intro r hr
        rw [List.mem_cons] at hr
        rcases hr with rfl | hr
        · exact (convertTagged_ok t r hc).2
        · exact ih rs0 hv r hr

/-- Fusion of the source's dedup loop with the spec-side first-occurrence
filter: the loop validates exactly the first occurrences, in order, and on
success its three accumulators are the initial values extended by the
first occurrences (converted as appropriate). -/
theorem dedupLoop_eq (l : List Tagged) (seen : List String)
    (raws : List Chunk) (rags : List RAGRetrieval) :
    dedupLoop ⟨seen, raws, rags⟩ l =
      match validateAll (firstOccurrencesFrom seen l) with
      | Except.error e => Except.error e
      | Except.ok rs =>
        Except.ok ⟨seen ++ (firstOccurrencesFrom seen l).map chunkIdOf,
          raws ++ (firstOccurrencesFrom seen l).map (fun t => t.2.2.2),
          rags ++ rs⟩ := by
  induction l generalizing seen raws rags with
  | nil => simp [firstOccurrencesFrom, validateAll, dedupLoop]
  | cons t rest ih =>
    simp only [dedupLoop, firstOccurrencesFrom]
    by_cases h : chunkIdOf t ∈ seen
    · rw [if_pos h, if_pos h, ih]
    · rw [if_neg h, if_neg h]
      cases hc : convertTagged t with
      | error e => simp [validateAll, hc]
      | ok r =>
        simp only [validateAll, hc, ih]
        cases validateAll (firstOccurrencesFrom (seen ++ [chunkIdOf t]) rest) with
        | error e => simp
        | ok rs => simp

/-- Every element kept by the first-occurrence filter has an unseen id, and
is the first element of the input with its id. -/
theorem firstOccurrencesFrom_find (l : List Tagged) (seen : List String) :
    ∀ t ∈ firstOccurrencesFrom seen l,
      chunkIdOf t ∉ seen ∧
      l.find? (fun u => chunkIdOf u == chunkIdOf t) = some t := by
  induction l generalizing seen with
  | nil => simp [firstOccurrencesFrom]
  | cons u rest ih =>
    intro t ht
    simp only [firstOccurrencesFrom] at ht
    by_cases h : chunkIdOf u ∈ seen
    · rw [if_pos h] at ht
      obtain ⟨hseen, hfind⟩ := ih seen t ht
      refine ⟨hseen, ?_⟩
      rw [List.find?_cons_of_neg, hfind]
      simp only [beq_iff_eq]
      intro he
      exact hseen (he ▸ h)
    · rw [if_neg h] at ht
      rw [List.mem_cons] at ht
      rcases ht with rfl | ht
      · exact ⟨h, by rw [List.find?_cons_of_pos]; simp⟩
      · obtain ⟨hseen, hfind⟩ := ih (seen ++ [chunkIdOf u]) t ht
        have hne : chunkIdOf t ≠ chunkIdOf u := by
          intro he; exact hseen (by simp [he])
        refine ⟨fun hmem => hseen (by simp [hmem]), ?_⟩
        rw [List.find?_cons_of_neg, hfind]
        simpa using fun he => hne he.symm

/-- The ids kept by the first-occurrence filter are pairwise distinct. -/
theorem firstOccurrencesFrom_nodup (l : List Tagged) (seen : List String) :
    ((firstOccurrencesFrom seen l).map chunkIdOf).Nodup := by
  induction l generalizing seen with
  | nil => simp [firstOccurrencesFrom]
  | cons u rest ih =>
    simp only [firstOccurrencesFrom]
    by_cases h : chunkIdOf u ∈ seen
    · rw [if_pos h]; exact ih seen
    · rw [if_neg h]
      simp only [List.map_cons, List.nodup_cons]
      refine ⟨?_, ih (seen ++ [chunkIdOf u])⟩
      intro hmem
      obtain ⟨t, ht, he⟩ := List.mem_map.mp hmem
      exact (firstOccurrencesFrom_find rest (seen ++ [chunkIdOf u]) t ht).1
        (by simp [he])

/-- Replacing every failing query outcome by an empty success leaves the
per-query result lists unchanged (a failure is caught and contributes
nothing). -/
theorem runQueryResults_failure_erasure (queries : List (String × String × String))
    (beh : Nat → QueryOutcome) :
    runQueryResults queries beh =
      runQueryResults queries (fun i =>
        match beh i with
        | QueryOutcome.failure _ => QueryOutcome.ok []
        | o => o) := by
  unfold runQueryResults
  apply List.map_congr_left
  intro iq _
  cases h : beh iq.1 <;> simp [h]

/-- The sort comparison is transitive. -/
theorem relGe_trans (a b c : RAGRetrieval) :
    relGe a b = true → relGe b c = true → relGe a c = true := by
  simp only [relGe, decide_eq_true_eq]
  exact fun h1 h2 => le_trans h2 h1

/-- The sort comparison is total. -/
theorem relGe_total (a b : RAGRetrieval) : (relGe a b || relGe b a) = true := by
  simp only [relGe, Bool.or_eq_true, decide_eq_true_eq]
  exact le_total _ _

end Reasoner

/-! ## Claim C6: retrieval batch semantics -/

/-- A result chunk whose cosine relevance score is negative (a realisable
vector-search outcome) under an otherwise valid metadata shape. -/
def c6BadChunk : Reasoner.Chunk :=
  { id := some "hr-5.1", score := some (-(1/10)), sectionKey := some "5.1",
    title := some "Credit requirements", gse := none,
    text := some "Minimum representative credit score." }

/-- A batch behaviour whose first query returns the negative-score chunk
and whose other queries fail (and are caught). -/
def c6BadBeh : Nat → Reasoner.QueryOutcome := fun i =>
  if i = 0 then Reasoner.QueryOutcome.ok [c6BadChunk]
  else Reasoner.QueryOutcome.failure "service unavailable"

/-- C6 counterexample: a kept chunk with a negative relevance score makes
the mid-loop `RAGRetrieval` pydantic construction (relevance_score `ge=0`)
raise ValidationError, aborting the whole batch — nothing is returned to
the caller, against the claim that the deduplicated, sorted, truncated
list is always returned. -/
theorem c6_counterexample :
    Reasoner.retrieve_eligibility_context exampleScenarioA c6BadBeh =
      Except.error "ValidationError: relevance_score must be between 0 and 1" := by
  rfl

/-- C6 amended: for every scenario and every behaviour of the per-query
embed-and-search collaborators, (i) a failing query contributes an empty
result list without changing anything else (the whole retrieval result is
identical to the one where every failure is replaced by an empty success);
and (ii) whenever the batch returns — that is, whenever every kept chunk
passes the `RAGRetrieval` validation — the raw chunk list is exactly the
merged results deduplicated by chunk id with the first occurrence winning,
and the returned `RAGRetrieval` list is exactly those kept chunks
converted, stably sorted in descending relevance-score order and truncated
to 12; it is sorted descending, has at most 12 entries, each kept entry is
the first element of the merged list carrying its chunk id, the kept chunk
ids are pairwise distinct, and every returned entry has a Literal-valid
GSE and a relevance score in [0,1]. -/
theorem c6_retrieval_batch_amended (scenario : LoanScenario)
    (beh : Nat → Reasoner.QueryOutcome) :
    (Reasoner.retrieve_eligibility_context scenario beh =
      Reasoner.retrieve_eligibility_context scenario (fun i =>
        match beh i with
        | Reasoner.QueryOutcome.failure _ => Reasoner.QueryOutcome.ok []
        | o => o)) ∧
    (∀ raws rags, Reasoner.retrieve_eligibility_context scenario beh =
        Except.ok (raws, rags) →
      raws = (Reasoner.firstOccurrences
          ((Reasoner.runQueryResults (Reasoner.eligibilityQueries scenario) beh).flatten)).map
        (fun t => t.2.2.2) ∧
      rags = (((Reasoner.firstOccurrences
          ((Reasoner.runQueryResults (Reasoner.eligibilityQueries scenario) beh).flatten)).map
        Reasoner.ragFieldsOfTagged).mergeSort Reasoner.relGe).take 12 ∧
      rags.Pairwise (fun a b => b.relevance_score ≤ a.relevance_score) ∧
      rags.length ≤ 12 ∧
      (∀ t ∈ Reasoner.firstOccurrences
          ((Reasoner.runQueryResults (Reasoner.eligibilityQueries scenario) beh).flatten),
        ((Reasoner.runQueryResults (Reasoner.eligibilityQueries scenario) beh).flatten).find?
          (fun u => Reasoner.chunkIdOf u == Reasoner.chunkIdOf t) = some t) ∧
      (((Reasoner.firstOccurrences
          ((Reasoner.runQueryResults (Reasoner.eligibilityQueries scenario) beh).flatten)).map
        Reasoner.chunkIdOf).Nodup) ∧
      (∀ r ∈ rags, (r.gse = "fannie_mae" ∨ r.gse = "freddie_mac") ∧
        0 ≤ r.relevance_score ∧ r.relevance_score ≤ 1)) := by
  constructor
  · simp only [Reasoner.retrieve_eligibility_context]
    rw [Reasoner.runQueryResults_failure_erasure]
  · intro raws rags hok
    simp only [Reasoner.retrieve_eligibility_context] at hok
    rw [Reasoner.dedupLoop_eq] at hok
    cases hva : Reasoner.validateAll (Reasoner.firstOccurrencesFrom []
        ((Reasoner.runQueryResults (Reasoner.eligibilityQueries scenario) beh).flatten)) with
    | error e => rw [hva] at hok; cases hok
    | ok rs =>
      rw [hva] at hok
      simp only [List.nil_append, Except.ok.injEq, Prod.mk.injEq] at hok
      obtain ⟨hraws, hrags⟩ := hok
      have hrs : rs = (Reasoner.firstOccurrencesFrom []
          ((Reasoner.runQueryResults (Reasoner.eligibilityQueries scenario) beh).flatten)).map
          Reasoner.ragFieldsOfTagged := Reasoner.validateAll_ok _ _ hva
      refine ⟨by rw [← hraws, Reasoner.firstOccurrences],
              by rw [← hrags, hrs, Reasoner.firstOccurrences], ?_, ?_, ?_, ?_, ?_⟩
      · rw [← hrags]
        refine List.Pairwise.sublist (List.take_sublist _ _) ?_
        have h := List.sorted_mergeSort Reasoner.relGe_trans Reasoner.relGe_total rs
        exact h.imp (fun hd => by simpa [Reasoner.relGe] using hd)
      · rw [← hrags]; exact List.length_take_le _ _
      · intro t ht
        exact (Reasoner.firstOccurrencesFrom_find _ [] t ht).2
      · exact Reasoner.firstOccurrencesFrom_nodup _ []
      · intro r hr
        refine Reasoner.validateAll_mem _ _ hva r ?_
        rw [← hrags] at hr
        exact (List.mergeSort_perm rs Reasoner.relGe).mem_iff.mp
          (List.mem_of_mem_take hr)

/-- A well-formed result chunk for the witness batch. -/
def c6GoodChunk : Reasoner.Chunk :=
  { id := some "hr-5.1", score := some (9/10), sectionKey := some "5.1",
    title := some "Credit requirements", gse := some "fannie_mae",
    text := some "Minimum representative credit score." }

/-- A batch behaviour whose first query returns the well-formed chunk and
whose other queries fail (and are caught). -/
def c6GoodBeh : Nat → Reasoner.QueryOutcome := fun i =>
  if i = 0 then Reasoner.QueryOutcome.ok [c6GoodChunk]
  else Reasoner.QueryOutcome.failure "service unavailable"

/-- The single returned retrieval entry of the witness batch. -/
def c6GoodRag : Reasoner.RAGRetrieval :=
  Reasoner.ragFieldsOfTagged
    ("credit_score", "HomeReady minimum credit score requirements eligibility",
     "fannie_mae", c6GoodChunk)

/-- Closed instantiation of the amended C6 theorem on a batch that returns
one chunk: the success hypothesis is discharged by computation and the
validated bounds hold of the returned entry. -/
theorem c6_retrieval_batch_amended_witness :
    [c6GoodRag].length ≤ 12 ∧
    (∀ r ∈ [c6GoodRag], (r.gse = "fannie_mae" ∨ r.gse = "freddie_mac") ∧
      0 ≤ r.relevance_score ∧ r.relevance_score ≤ 1) := by
  have h1 : Reasoner.dedupLoop ⟨[], [], []⟩
      ((Reasoner.runQueryResults (Reasoner.eligibilityQueries exampleScenarioA)
        c6GoodBeh).flatten) =
      Except.ok ⟨["hr-5.1"], [c6GoodChunk], [c6GoodRag]⟩ := rfl
  have hok : Reasoner.retrieve_eligibility_context exampleScenarioA c6GoodBeh =
      Except.ok ([c6GoodChunk], [c6GoodRag]) := by
    simp only [Reasoner.retrieve_eligibility_context, h1,
      List.mergeSort_singleton]
    rfl
  have h := (c6_retrieval_batch_amended exampleScenarioA c6GoodBeh).2
    [c6GoodChunk] [c6GoodRag] hok
  exact ⟨h.2.2.2.1, h.2.2.2.2.2.2⟩

/-! ## Untyped JSON values and Python dynamic primitives

The terminal payload of the ReAct loop is untyped, LLM-authored JSON.  The
builders of fix_finder_service.py manipulate it with Python dynamic
operations; each operation that can raise is embedded with `Except`. -/

/-- A syntactically valid JSON value. -/
inductive JVal where
  | null
  | bool (b : Bool)
  | num (q : Rat)
  | str (s : String)
  | arr (elems : List JVal)
  | obj (fields : List (String × JVal))

namespace JVal

/-- Python `d.get(key, default)` on an object's field list (dict keys are
unique, so first match). -/
def pyGet (fields : List (String × JVal)) (key : String) (dflt : JVal) : JVal :=
  ((fields.find? (fun p => p.1 == key)).map (fun p => p.2)).getD dflt

/-- Python truthiness of a JSON value. -/
def pyTruthy : JVal → Bool
  | .null => false
  | .bool b => b
  | .num q => decide (q ≠ 0)
  | .str s => decide (s ≠ "")
  | .arr l => !l.isEmpty
  | .obj fs => !fs.isEmpty

/-- Python `a or b`. -/
def pyOr (a b : JVal) : JVal := if pyTruthy a then a else b

/-- Python `v == s` for a string literal `s`. -/
def isStr (v : JVal) (s : String) : Bool :=
  match v with
  | .str t => t == s
  | _ => false

/-- Python `for x in v`: lists yield elements, strings yield their
characters, dicts yield their keys; other values raise TypeError. -/
def pyIterate : JVal → Except String (List JVal)
  | .arr l => Except.ok l
  | .str s => Except.ok (s.data.map (fun c => JVal.str (String.mk [c])))
  | .obj fs => Except.ok (fs.map (fun p => JVal.str p.1))
  | _ => Except.error "TypeError: object is not iterable"

/-- Sign-and-digits integer parsing (the core of Python `int(str)`;
exponents and underscores are not modelled — this affects only which
strings raise, which no claim enumerates). -/
def parseDigits : List Char → Option Nat
  | [] => none
  | cs => cs.foldl (fun acc c =>
      acc.bind (fun n => if c.isDigit then some (n * 10 + (c.toNat - 48)) else none))
      (some 0)

/-- Python `int(str)` on a trimmed numeral. -/
def parseIntString (s : String) : Option Int :=
  match s.data with
  | '-' :: rest => (parseDigits rest).map (fun n => -(n : Int))
  | '+' :: rest => (parseDigits rest).map (fun n => (n : Int))
  | cs => (parseDigits cs).map (fun n => (n : Int))

/-- Python `float(str)` on a plain decimal numeral (scientific notation,
inf and nan are not modelled — this affects only which strings raise). -/
def parseFloatString (s : String) : Option Rat :=
  let noSign : List Char → Option Rat := fun cs =>
    match cs.splitOn '.' with
    | [intPart] => (parseDigits intPart).map (fun n => (n : Rat))
    | [intPart, fracPart] =>
      match parseDigits intPart, parseDigits fracPart with
      | some n, some f => some ((n : Rat) + (f : Rat) / (10 : Rat) ^ fracPart.length)
      | _, _ => none
    | _ => none
  match s.data with
  | '-' :: rest => (noSign rest).map (fun q => -q)
  | '+' :: rest => noSign rest
  | cs => noSign cs

/-- Python `float(v)`: numbers and bools convert, numeric strings parse,
everything else raises. -/
def pyFloat : JVal → Except String Rat
  | .num q => Except.ok q
  | .bool b => Except.ok (if b then 1 else 0)
  | .str s =>
    match parseFloatString s with
    | some q => Except.ok q
    | none => Except.error "ValueError: could not convert string to float"
  | _ => Except.error "TypeError: float() argument"

/-- Python `int(v)`: ints stay, floats truncate toward zero, bools convert,
integer strings parse, everything else raises. -/
def pyInt : JVal → Except String Int
  | .num q => Except.ok (if 0 ≤ q then q.floor else q.ceil)
  | .bool b => Except.ok (if b then 1 else 0)
  | .str s =>
    match parseIntString s with
    | some n => Except.ok n
    | none => Except.error "ValueError: invalid literal for int()"
  | _ => Except.error "TypeError: int() argument"

/-- Python `max(v, bound)` with a numeric bound, for a dynamic `v` (used by
`_build_fix_sequences`, which clamps without converting first): numbers and
bools compare, everything else raises TypeError. -/
def pyMaxNum (v : JVal) (bound : Rat) : Except String Rat
  := match v with
  | .num q => Except.ok (max q bound)
  | .bool b => Except.ok (max (if b then 1 else 0) bound)
  | _ => Except.error "TypeError: unsupported comparison"

end JVal

/-- Is one character list a prefix of another (executable helper). -/
def charsStartWith : List Char → List Char → Bool
  | [], _ => true
  | _ :: _, [] => false
  | a :: as, b :: bs => a == b && charsStartWith as bs

/-- Does `needle` occur contiguously in `hay` (Python `needle in hay` for
strings; the empty needle is contained in everything). -/
def charsContain (needle : List Char) : List Char → Bool
  | [] => charsStartWith needle []
  | c :: t => charsStartWith needle (c :: t) || charsContain needle t

/-- Python `needle in hay` for strings. -/
def pyInStr (needle hay : String) : Bool := charsContain needle.data hay.data

/-- Python `str.split()` (split on whitespace runs, no empty parts). -/
def splitWsAux : List Char → List Char → List String
  | [], acc => if acc.isEmpty then [] else [String.mk acc.reverse]
  | c :: rest, acc =>
    if c.isWhitespace then
      if acc.isEmpty then splitWsAux rest []
      else String.mk acc.reverse :: splitWsAux rest []
    else splitWsAux rest (c :: acc)

/-- Python `s.split()`. -/
def pySplitWs (s : String) : List String := splitWsAux s.data []

mutual

/-- A JSON-style rendering of a value (stands in for Python `str(v)` /
`json.dumps(v)`; quoting details of the Python originals are approximated —
no claim depends on the rendered text). -/
def pyStrOfJVal : JVal → String
  | .null => "None"
  | .bool true => "True"
  | .bool false => "False"
  | .num q => toString q
  | .str s => s
  | .arr l => "[" ++ String.intercalate ", " (pyReprListOfJVal l) ++ "]"
  | .obj fs => "\x7b" ++ String.intercalate ", " (pyReprFieldsOfJVal fs) ++ "\x7d"

/-- Rendering of each element of a list. -/
def pyReprListOfJVal : List JVal → List String
  | [] => []
  | v :: rest => pyReprOfJVal v :: pyReprListOfJVal rest

/-- Rendering of each field of an object. -/
def pyReprFieldsOfJVal : List (String × JVal) → List String
  | [] => []
  | (k, v) :: rest => ("\"" ++ k ++ "\": " ++ pyReprOfJVal v) :: pyReprFieldsOfJVal rest

/-- Inner rendering (strings quoted). -/
def pyReprOfJVal : JVal → String
  | .str s => "\"" ++ s ++ "\""
  | v => pyStrOfJVal v

end

/-- Successful bind decomposition for `Except` (used to walk the builders'
sequenced operations in proofs). -/
theorem except_bind_ok {ε α β : Type} (x : Except ε α) (f : α → Except ε β)
    (b : β) : (x >>= f) = Except.ok b ↔ ∃ a, x = Except.ok a ∧ f a = Except.ok b := by
  cases x <;> simp [Bind.bind, Except.bind]

/-! ## ResultNormalizer
(fix_finder_service.py, `_build_enhanced_fixes` and `_build_fix_sequences`) -/

namespace FixFinder

/-- models/fix_finder.py `GuideCitation`. -/
structure GuideCitation where
  section_id : String
  gse : String
  snippet : String
  relevance_score : Rat
deriving Repr, DecidableEq

/-- models/fix_finder.py `EnhancedFixSuggestion`.  (The
`compensating_factors` entries are never produced by the service; the
element type is immaterial.) -/
structure EnhancedFixSuggestion where
  description : String
  impact : String
  difficulty : String
  confidence : Rat
  priority_order : Int
  estimated_timeline : String
  unlocks_products : List String
  citations : List GuideCitation
  compensating_factors : List String
  trade_offs : List String
deriving Repr, DecidableEq

/-- models/fix_finder.py `FixSequence`. -/
structure FixSequence where
  sequence_name : String
  description : String
  steps : List EnhancedFixSuggestion
  total_effort : String
  effort_vs_benefit_score : Rat
  products_unlocked : List String
  estimated_total_timeline : String
deriving Repr, DecidableEq

/-- pydantic coercion of a dynamic value into a `str` field: anything but a
string raises ValidationError. -/
def asPyStr : JVal → Except String String
  | .str s => Except.ok s
  | _ => Except.error "ValidationError: string required"

/-- pydantic coercion into an `int` field (approximates pydantic v2 lax
mode: integral numbers and integer strings coerce, the rest raises). -/
def pydanticInt : JVal → Except String Int
  | .num q =>
    if q.den = 1 then Except.ok q.num
    else Except.error "ValidationError: int required"
  | .str s =>
    match JVal.parseIntString s with
    | some n => Except.ok n
    | none => Except.error "ValidationError: int required"
  | _ => Except.error "ValidationError: int required"

/-- The filter `[p for p in unlocks if p in ["HomeReady", "Home Possible"]]`
(non-strings never compare equal to the two product names). -/
def validProducts (l : List JVal) : List String :=
  l.filterMap (fun p => match p with
    | JVal.str s =>
      if s = "HomeReady" ∨ s = "Home Possible" then some s else none
    | _ => none)

/-- The difficulty guard: keep one of the three literals, otherwise default
to moderate (a non-string is never `in` the literal list). -/
def coerceDifficulty (v : JVal) : String :=
  match v with
  | JVal.str s => if s = "easy" ∨ s = "moderate" ∨ s = "hard" then s else "moderate"
  | _ => "moderate"

/-- The total-effort guard of `_build_fix_sequences`. -/
def coerceEffort (v : JVal) : String :=
  match v with
  | JVal.str s =>
    if s = "low" ∨ s = "medium" ∨ s = "high" ∨ s = "very_high" then s
    else "medium"
  | _ => "medium"

/-- The `EnhancedFixSuggestion(...)` construction of `_build_enhanced_fixes`
with its pydantic validation: the string fields must be strings, the
trade-off entries must be strings, and `priority_order` must be at least
1.  (The confidence bound constraints always hold for the clamped value the
caller passes.) -/
def mkEnhancedFix (descriptionJ impactJ : JVal) (difficulty : String)
    (confidence : Rat) (priority : Int) (timelineJ : JVal)
    (unlocks : List String) (cits : List GuideCitation)
    (tradeJs : List JVal) : Except String EnhancedFixSuggestion := do
  let d ← asPyStr descriptionJ
  let im ← asPyStr impactJ
  let tl ← asPyStr timelineJ
  let tos ← tradeJs.mapM asPyStr
  if priority < 1 then Except.error "ValidationError: priority_order must be >= 1"
  else
    let f : EnhancedFixSuggestion :=
      { description := d, impact := im, difficulty := difficulty,
        confidence := confidence, priority_order := priority,
        estimated_timeline := tl, unlocks_products := unlocks, citations := cits,
        compensating_factors := [], trade_offs := tos }
    Except.ok f

/-- The body of the `for i, fix in enumerate(raw_fixes)` loop of
`_build_enhanced_fixes`; `none` models `continue` for a non-dict entry. -/
def processOneFix (all_citations : List GuideCitation) (i : Nat) (fix : JVal) :
    Except String (Option EnhancedFixSuggestion) :=
  match fix with
  | JVal.obj ffs => do
    let difficulty := coerceDifficulty (JVal.pyGet ffs "difficulty" (JVal.str "moderate"))
    -- `fix.get("description", "").split()[:5]` raises unless the value is a string
    let keywords ← (match JVal.pyGet ffs "description" (JVal.str "") with
      | JVal.str s => Except.ok ((pySplitWs s).take 5)
      | _ => Except.error "AttributeError: split")
    let fix_citations := all_citations.filter (fun c =>
      keywords.any (fun kw => pyInStr (pyLower kw) (pyLower c.snippet)))
    let unlocksJ := JVal.pyOr (JVal.pyGet ffs "unlocks_products" (JVal.arr []))
      (JVal.pyGet ffs "products_unlocked" (JVal.arr []))
    let unlocks : List JVal := match unlocksJ with
      | JVal.str s => if s ≠ "" then [JVal.str s] else []
      | JVal.arr l => l
      | _ => []
    let tradeJs : List JVal := match JVal.pyGet ffs "trade_offs" (JVal.arr []) with
      | JVal.str s => if s ≠ "" then [JVal.str s] else []
      | JVal.arr l => l
      | _ => []
    let description := JVal.pyOr (JVal.pyOr (JVal.pyGet ffs "description" (JVal.str ""))
      (JVal.pyGet ffs "fix" (JVal.str ""))) (JVal.str "No description provided")
    let impact := JVal.pyOr (JVal.pyOr (JVal.pyGet ffs "impact" (JVal.str ""))
      (JVal.pyGet ffs "quantified_impact" (JVal.str ""))) (JVal.str "Impact not specified")
    let priorityJ := JVal.pyGet ffs "priority_order"
      (JVal.pyGet ffs "priority" (JVal.num (i + 1)))
    let confidence ← JVal.pyFloat (JVal.pyGet ffs "confidence" (JVal.num (7/10)))
    let priority ← JVal.pyInt priorityJ
    let timeline := JVal.pyOr (JVal.pyGet ffs "estimated_timeline" (JVal.str "Varies"))
      (JVal.str "Varies")
    let f ← mkEnhancedFix description impact difficulty (min (max confidence 0) 1)
      priority timeline (validProducts unlocks) (fix_citations.take 3) tradeJs
    Except.ok (some f)
  | _ => Except.ok none

/-- The enumerate loop of `_build_enhanced_fixes`. -/
def buildFixesLoop (all_citations : List GuideCitation) :
    List JVal → Nat → Except String (List EnhancedFixSuggestion)
  | [], _ => Except.ok []
  | fix :: rest, i => do
    let head ← processOneFix all_citations i fix
    let tail ← buildFixesLoop all_citations rest (i + 1)
    match head with
    | some f => Except.ok (f :: tail)
    | none => Except.ok tail

/-- `FixFinderService._build_enhanced_fixes` on the parsed payload.  The
`violations` argument is accepted and unused, as in the source. -/
def build_enhanced_fixes (analysis : JVal) (all_citations : List GuideCitation)
    (violations : List RuleViolation) : Except String (List EnhancedFixSuggestion) :=
  match analysis with
  | JVal.obj fs => do
    let items ← JVal.pyIterate (JVal.pyGet fs "enhanced_fixes" (JVal.arr []))
    buildFixesLoop all_citations items 0
  | _ => Except.error "AttributeError: no attribute get"

/-- One step construction inside `_build_fix_sequences` (`stepsSoFar` is
`len(steps)` at the moment of the default-priority read). -/
def mkStepFix (sfs : List (String × JVal)) (stepsSoFar : Nat) :
    Except String EnhancedFixSuggestion := do
  let difficulty := coerceDifficulty (JVal.pyGet sfs "difficulty" (JVal.str "moderate"))
  -- `min(max(step.get("confidence", 0.7), 0), 1)` compares without converting
  let c0 ← JVal.pyMaxNum (JVal.pyGet sfs "confidence" (JVal.num (7/10))) 0
  let confidence := min c0 1
  let d ← asPyStr (JVal.pyGet sfs "description" (JVal.str ""))
  let im ← asPyStr (JVal.pyGet sfs "impact" (JVal.str ""))
  let priority ← pydanticInt (JVal.pyGet sfs "priority_order" (JVal.num (stepsSoFar + 1)))
  let tl ← asPyStr (JVal.pyGet sfs "estimated_timeline" (JVal.str "Varies"))
  if priority < 1 then Except.error "ValidationError: priority_order must be >= 1"
  else
    let f : EnhancedFixSuggestion :=
      { description := d, impact := im, difficulty := difficulty,
        confidence := confidence, priority_order := priority,
        estimated_timeline := tl, unlocks_products := [], citations := [],
        compensating_factors := [], trade_offs := [] }
    Except.ok f

/-- The `for step in raw_steps` loop (non-dict steps are silently
skipped; the counter is the number of steps appended so far). -/
def stepsLoop : List JVal → Nat → Except String (List EnhancedFixSuggestion)
  | [], _ => Except.ok []
  | step :: rest, n =>
    match step with
    | JVal.obj sfs => do
      let f ← mkStepFix sfs n
      let tail ← stepsLoop rest (n + 1)
      Except.ok (f :: tail)
    | _ => stepsLoop rest n

/-- The body of the `for seq in raw_sequences` loop; `none` models both
`continue` for a non-dict entry and the drop of a sequence with zero valid
steps. -/
def processOneSequence (seq : JVal) (kept : Nat) : Except String (Option FixSequence) :=
  match seq with
  | JVal.obj sfs => do
    let effort := coerceEffort (JVal.pyGet sfs "total_effort" (JVal.str "medium"))
    -- the products_unlocked comprehension iterates without a type guard
    let unlocksL ← JVal.pyIterate (JVal.pyGet sfs "products_unlocked" (JVal.arr []))
    let rawSteps ← JVal.pyIterate (JVal.pyGet sfs "steps" (JVal.arr []))
    let steps ← stepsLoop rawSteps 0
    if steps.isEmpty then Except.ok none
    else do
      let score0 ← JVal.pyMaxNum (JVal.pyGet sfs "effort_vs_benefit_score" (JVal.num 5)) 0
      let score := min score0 10
      let nm ← asPyStr (JVal.pyGet sfs "sequence_name"
        (JVal.str ("Path " ++ toString (kept + 1))))
      let d ← asPyStr (JVal.pyGet sfs "description" (JVal.str ""))
      let tl ← asPyStr (JVal.pyGet sfs "estimated_total_timeline" (JVal.str "Varies"))
      Except.ok (some
        { sequence_name := nm, description := d, steps := steps,
          total_effort := effort, effort_vs_benefit_score := score,
          products_unlocked := validProducts unlocksL,
          estimated_total_timeline := tl })
  | _ => Except.ok none

/-- The sequence loop (`kept` counts appended sequences, for the default
path name). -/
def buildSequencesLoop : List JVal → Nat → Except String (List FixSequence)
  | [], _ => Except.ok []
  | seq :: rest, kept => do
    let head ← processOneSequence seq kept
    match head with
    | some fs => do
      let tail ← buildSequencesLoop rest (kept + 1)
      Except.ok (fs :: tail)
    | none => buildSequencesLoop rest kept

/-- `FixFinderService._build_fix_sequences` on the parsed payload.  The
`enhanced_fixes` argument is accepted and unused, as in the source. -/
def build_fix_sequences (analysis : JVal)
    (enhanced_fixes : List EnhancedFixSuggestion) : Except String (List FixSequence) :=
  match analysis with
  | JVal.obj fs => do
    let raw ← JVal.pyIterate (JVal.pyGet fs "fix_sequences" (JVal.arr []))
    buildSequencesLoop raw 0
  | _ => Except.error "AttributeError: no attribute get"

/-! ### Range lemmas for the normalizer outputs -/

/-- The clamp `min(max(c, 0), 1)` lands in the unit interval. -/
theorem clamp01_mem (c : Rat) : 0 ≤ min (max c 0) 1 ∧ min (max c 0) 1 ≤ 1 :=
  ⟨le_min (le_max_right c 0) zero_le_one, min_le_right _ _⟩

/-- A successfully constructed fix carries the confidence it was given. -/
theorem mkEnhancedFix_conf (dj ij : JVal) (df : String) (c : Rat) (p : Int)
    (tj : JVal) (u : List String) (ci : List GuideCitation) (t : List JVal)
    (f : EnhancedFixSuggestion) :
    mkEnhancedFix dj ij df c p tj u ci t = Except.ok f → f.confidence = c := by
  intro h
  simp only [mkEnhancedFix, except_bind_ok] at h
  obtain ⟨d, hd, im, him, tl, htl, tos, htos, h⟩ := h
  split at h
  · cases h
  · rw [Except.ok.injEq] at h
    subst h
    rfl

/-- A fix produced by the enumerate-loop body has clamped confidence. -/
theorem processOneFix_bounds (cits : List GuideCitation) (i : Nat) (fix : JVal)
    (f : EnhancedFixSuggestion) :
    processOneFix cits i fix = Except.ok (some f) →
      0 ≤ f.confidence ∧ f.confidence ≤ 1 := by
  intro h
  match fix with
  | JVal.null | JVal.bool _ | JVal.num _ | JVal.str _ | JVal.arr _ =>
    simp [processOneFix] at h
  | JVal.obj ffs =>
    simp only [processOneFix, except_bind_ok] at h
    obtain ⟨kws, hkws, conf, hconf, pr, hpr, f0, hf0, h⟩ := h
    rw [Except.ok.injEq, Option.some.injEq] at h
    subst h
    rw [mkEnhancedFix_conf _ _ _ _ _ _ _ _ _ _ hf0]
    exact clamp01_mem conf

/-- Every fix in a successful enumerate-loop run has clamped confidence. -/
theorem buildFixesLoop_bounds (cits : List GuideCitation) :
    ∀ (items : List JVal) (i : Nat) (l : List EnhancedFixSuggestion),
      buildFixesLoop cits items i = Except.ok l →
      ∀ f ∈ l, 0 ≤ f.confidence ∧ f.confidence ≤ 1 := by
  intro items
  induction items with
  | nil =>
    intro i l h f hf
    simp only [buildFixesLoop, Except.ok.injEq] at h
    subst h
    simp at hf
  | cons fix rest ih =>
    intro i l h f hf
    simp only [buildFixesLoop, except_bind_ok] at h
    obtain ⟨headOpt, hhead, tail, htail, hfin⟩ := h
    cases headOpt with
    | some f0 =>
      rw [Except.ok.injEq] at hfin
      subst hfin
      rw [List.mem_cons] at hf
      rcases hf with rfl | hf
      · exact processOneFix_bounds cits i fix f hhead
      · exact ih (i + 1) tail htail f hf
    | none =>
      rw [Except.ok.injEq] at hfin
      subst hfin
      exact ih (i + 1) tail htail f hf

/-- Every fix produced by a successful `_build_enhanced_fixes` run has
confidence in the unit interval. -/
theorem build_enhanced_fixes_bounds (analysis : JVal) (cits : List GuideCitation)
    (viols : List RuleViolation) (l : List EnhancedFixSuggestion) :
    build_enhanced_fixes analysis cits viols = Except.ok l →
      ∀ f ∈ l, 0 ≤ f.confidence ∧ f.confidence ≤ 1 := by
  intro h f hf
  match analysis with
  | JVal.null | JVal.bool _ | JVal.num _ | JVal.str _ | JVal.arr _ =>
    simp [build_enhanced_fixes] at h
  | JVal.obj fs =>
    simp only [build_enhanced_fixes, except_bind_ok] at h
    obtain ⟨items, hitems, hloop⟩ := h
    exact buildFixesLoop_bounds cits items 0 l hloop f hf

/-- `max(v, 0)` is nonnegative when it does not raise. -/
theorem pyMaxNum_nonneg (v : JVal) (c : Rat) :
    JVal.pyMaxNum v 0 = Except.ok c → 0 ≤ c := by
  intro h
  match v with
  | JVal.num q =>
    simp only [JVal.pyMaxNum, Except.ok.injEq] at h
    subst h
    exact le_max_right _ _
  | JVal.bool b =>
    simp only [JVal.pyMaxNum, Except.ok.injEq] at h
    subst h
    exact le_max_right _ _
  | JVal.null | JVal.str _ | JVal.arr _ | JVal.obj _ => simp [JVal.pyMaxNum] at h

/-- A successfully constructed sequence step has clamped confidence. -/
theorem mkStepFix_bounds (sfs : List (String × JVal)) (n : Nat)
    (f : EnhancedFixSuggestion) :
    mkStepFix sfs n = Except.ok f → 0 ≤ f.confidence ∧ f.confidence ≤ 1 := by
  intro h
  simp only [mkStepFix, except_bind_ok] at h
  obtain ⟨c0, hc0, d, hd, im, him, pr, hpr, tl, htl, h⟩ := h
  split at h
  · cases h
  · rw [Except.ok.injEq] at h
    subst h
    have h0 := pyMaxNum_nonneg _ _ hc0
    exact ⟨le_min h0 zero_le_one, min_le_right _ _⟩

/-- Every step in a successful steps-loop run has clamped confidence. -/
theorem stepsLoop_bounds :
    ∀ (raw : List JVal) (n : Nat) (l : List EnhancedFixSuggestion),
      stepsLoop raw n = Except.ok l →
      ∀ f ∈ l, 0 ≤ f.confidence ∧ f.confidence ≤ 1 := by
  intro raw
  induction raw with
  | nil =>
    intro n l h f hf
    simp only [stepsLoop, Except.ok.injEq] at h
    subst h
    simp at hf
  | cons step rest ih =>
    intro n l h f hf
    match step with
    | JVal.obj sfs =>
      simp only [stepsLoop, except_bind_ok] at h
      obtain ⟨f0, hf0, tail, htail, hfin⟩ := h
      rw [Except.ok.injEq] at hfin
      subst hfin
      rw [List.mem_cons] at hf
      rcases hf with rfl | hf
      · exact mkStepFix_bounds sfs n f hf0
      · exact ih (n + 1) tail htail f hf
    | JVal.null | JVal.bool _ | JVal.num _ | JVal.str _ | JVal.arr _ =>
      simp only [stepsLoop] at h
      exact ih n l h f hf

/-- A sequence kept by the loop body has a clamped score and clamped step
confidences. -/
theorem processOneSequence_bounds (seq : JVal) (kept : Nat) (sq : FixSequence) :
    processOneSequence seq kept = Except.ok (some sq) →
      (0 ≤ sq.effort_vs_benefit_score ∧ sq.effort_vs_benefit_score ≤ 10) ∧
      ∀ st ∈ sq.steps, 0 ≤ st.confidence ∧ st.confidence ≤ 1 := by
  intro h
  match seq with
  | JVal.null | JVal.bool _ | JVal.num _ | JVal.str _ | JVal.arr _ =>
    simp [processOneSequence] at h
  | JVal.obj sfs =>
    simp only [processOneSequence, except_bind_ok] at h
    obtain ⟨ul, hul, rawSteps, hraw, steps, hsteps, h⟩ := h
    split at h
    · cases h
    · simp only [except_bind_ok] at h
      obtain ⟨score0, hscore0, nm, hnm, d, hd, tl, htl, h⟩ := h
      rw [Except.ok.injEq, Option.some.injEq] at h
      subst h
      have h0 := pyMaxNum_nonneg _ _ hscore0
      refine ⟨⟨le_min h0 (by norm_num), min_le_right _ _⟩, ?_⟩
      intro st hst
      exact stepsLoop_bounds rawSteps 0 steps hsteps st hst

/-- Every sequence in a successful sequence-loop run is in range. -/
theorem buildSequencesLoop_bounds :
    ∀ (raw : List JVal) (kept : Nat) (L : List FixSequence),
      buildSequencesLoop raw kept = Except.ok L →
      ∀ sq ∈ L, (0 ≤ sq.effort_vs_benefit_score ∧ sq.effort_vs_benefit_score ≤ 10) ∧
        ∀ st ∈ sq.steps, 0 ≤ st.confidence ∧ st.confidence ≤ 1 := by
  intro raw
  induction raw with
  | nil =>
    intro kept L h sq hsq
    simp only [buildSequencesLoop, Except.ok.injEq] at h
    subst h
    simp at hsq
  | cons seq rest ih =>
    intro kept L h sq hsq
    simp only [buildSequencesLoop, except_bind_ok] at h
    obtain ⟨headOpt, hhead, hfin⟩ := h
    cases headOpt with
    | some sq0 =>
      simp only [except_bind_ok] at hfin
      obtain ⟨tail, htail, hfin⟩ := hfin
      rw [Except.ok.injEq] at hfin
      subst hfin
      rw [List.mem_cons] at hsq
      rcases hsq with rfl | hsq
      · exact processOneSequence_bounds seq kept sq hhead
      · exact ih (kept + 1) tail htail sq hsq
    | none =>
      exact ih kept L hfin sq hsq

/-- Every sequence produced by a successful `_build_fix_sequences` run has
its score in `[0, 10]` and its steps' confidences in `[0, 1]`. -/
theorem build_fix_sequences_bounds (analysis : JVal)
    (fixesIn : List EnhancedFixSuggestion) (L : List FixSequence) :
    build_fix_sequences analysis fixesIn = Except.ok L →
      ∀ sq ∈ L, (0 ≤ sq.effort_vs_benefit_score ∧ sq.effort_vs_benefit_score ≤ 10) ∧
        ∀ st ∈ sq.steps, 0 ≤ st.confidence ∧ st.confidence ≤ 1 := by
  intro h sq hsq
  match analysis with
  | JVal.null | JVal.bool _ | JVal.num _ | JVal.str _ | JVal.arr _ =>
    simp [build_fix_sequences] at h
  | JVal.obj fs =>
    simp only [build_fix_sequences, except_bind_ok] at h
    obtain ⟨raw, hraw, hloop⟩ := h
    exact buildSequencesLoop_bounds raw 0 L hloop sq hsq

end FixFinder

/-! ## Claim C2: the result normalization -/

/-- C2 counterexample: on the syntactically valid JSON payload
`{"enhanced_fixes": 5}`, `_build_enhanced_fixes` raises a TypeError
(Python iterates `raw_fixes` with no type guard), so the claim that the
normalization never raises for any syntactically valid JSON payload is
false as stated. -/
theorem c2_counterexample :
    FixFinder.build_enhanced_fixes
        (JVal.obj [("enhanced_fixes", JVal.num 5)]) [] [] =
      Except.error "TypeError: object is not iterable" := rfl

/-- C2 amended: on the empty object the two builders succeed and return
empty lists, and on every payload on which they do not raise, every
produced confidence lies in `[0, 1]` and every produced
effort-vs-benefit score lies in `[0, 10]` (including the step fixes inside
sequences).  There are, however, syntactically valid payloads on which the
builders raise (see the counterexample). -/
theorem c2_normalizer_amended (analysis : JVal)
    (cits : List FixFinder.GuideCitation) (viols : List RuleViolation)
    (fixesIn : List FixFinder.EnhancedFixSuggestion) :
    (FixFinder.build_enhanced_fixes (JVal.obj []) cits viols = Except.ok []) ∧
    (FixFinder.build_fix_sequences (JVal.obj []) fixesIn = Except.ok []) ∧
    (∀ l, FixFinder.build_enhanced_fixes analysis cits viols = Except.ok l →
      ∀ f ∈ l, 0 ≤ f.confidence ∧ f.confidence ≤ 1) ∧
    (∀ L, FixFinder.build_fix_sequences analysis fixesIn = Except.ok L →
      ∀ sq ∈ L,
        (0 ≤ sq.effort_vs_benefit_score ∧ sq.effort_vs_benefit_score ≤ 10) ∧
        ∀ st ∈ sq.steps, 0 ≤ st.confidence ∧ st.confidence ≤ 1) :=
  ⟨rfl, rfl,
   fun l h => FixFinder.build_enhanced_fixes_bounds analysis cits viols l h,
   fun L h => FixFinder.build_fix_sequences_bounds analysis fixesIn L h⟩

/-- A payload exercising both clamps: a confidence of 2 and a score of
12. -/
def c2WitnessPayload : JVal :=
  JVal.obj [("enhanced_fixes", JVal.arr [JVal.obj [("confidence", JVal.num 2)]]),
            ("fix_sequences", JVal.arr [JVal.obj
              [("effort_vs_benefit_score", JVal.num 12),
               ("steps", JVal.arr [JVal.obj []])]])]

/-- The fix the witness payload produces (confidence clamped to 1). -/
def c2WitnessFix : FixFinder.EnhancedFixSuggestion :=
  { description := "No description provided", impact := "Impact not specified",
    difficulty := "moderate", confidence := 1, priority_order := 1,
    estimated_timeline := "Varies", unlocks_products := [], citations := [],
    compensating_factors := [], trade_offs := [] }

/-- The sequence the witness payload produces (score clamped to 10). -/
def c2WitnessSeq : FixFinder.FixSequence :=
  { sequence_name := "Path 1", description := "",
    steps := [{ description := "", impact := "", difficulty := "moderate",
                confidence := 7/10, priority_order := 1,
                estimated_timeline := "Varies", unlocks_products := [],
                citations := [], compensating_factors := [], trade_offs := [] }],
    total_effort := "medium", effort_vs_benefit_score := 10,
    products_unlocked := [], estimated_total_timeline := "Varies" }

/-- Witness for the amended C2, at a concrete payload whose raw confidence
(2) and raw score (12) are out of range and get clamped to 1 and 10. -/
theorem c2_normalizer_amended_witness :
    FixFinder.build_enhanced_fixes c2WitnessPayload [] [] = Except.ok [c2WitnessFix] ∧
    (0 ≤ c2WitnessFix.confidence ∧ c2WitnessFix.confidence ≤ 1) ∧
    FixFinder.build_fix_sequences c2WitnessPayload [] = Except.ok [c2WitnessSeq] ∧
    (0 ≤ c2WitnessSeq.effort_vs_benefit_score ∧
      c2WitnessSeq.effort_vs_benefit_score ≤ 10) :=
  ⟨rfl,
   (c2_normalizer_amended c2WitnessPayload [] [] []).2.2.1 [c2WitnessFix]
     rfl c2WitnessFix (List.mem_singleton.mpr rfl),
   rfl,
   ((c2_normalizer_amended c2WitnessPayload [] [] []).2.2.2 [c2WitnessSeq]
     rfl c2WitnessSeq (List.mem_singleton.mpr rfl)).1⟩

/-! ## LLM usage telemetry (backend/app/services/llm_usage_service.py)

`LLMUsageTracker.record` persists a record to the database inside a
`try`; on any database failure it appends the record to an in-memory
fallback list and returns — it never raises.  The database behaviour for
one call is a boolean oracle. -/

/-- llm_usage_service.py `UsageRecord` (the wall-clock duration is not
modelled and carried as given). -/
structure UsageRecord where
  service_name : String
  model_name : String
  model_provider : String
  request_type : String
  tokens_input : Nat
  tokens_output : Nat
  duration_ms : Nat
  success : Bool
  error_message : Option String
deriving Repr, DecidableEq

/-- The tracker state: records persisted to the database and the in-memory
fallback buffer. -/
structure Tracker where
  db_records : List UsageRecord
  in_memory_records : List UsageRecord
deriving Repr, DecidableEq

/-- `LLMUsageTracker.record`: persist on a healthy database, buffer in
memory on a failing one; total either way. -/
def Tracker.record (dbOk : Bool) (u : UsageRecord) (t : Tracker) : Tracker :=
  if dbOk then { t with db_records := t.db_records ++ [u] }
  else { t with in_memory_records := t.in_memory_records ++ [u] }

/-- The number of usage-telemetry records written so far (database plus
in-memory fallback). -/
def Tracker.total (t : Tracker) : Nat :=
  t.db_records.length + t.in_memory_records.length

/-- One `record` call grows the record count by exactly one, regardless of
the database behaviour. -/
theorem Tracker.record_total (dbOk : Bool) (u : UsageRecord) (t : Tracker) :
    (t.record dbOk u).total = t.total + 1 := by
  unfold Tracker.record Tracker.total
  split <;> simp <;> omega

/-! ## The ReAct loop (fix_finder_service.py, `_run_react_loop`) -/

namespace FixFinder

/-- One content block of a generative-model response. -/
inductive ContentBlock where
  | toolUse (id : String) (name : String) (input : JVal)
  | text (t : String)

/-- One turn handed to or received from the generative collaborator. -/
inductive Message where
  | user (text : String)
  | assistantBlocks (content : List ContentBlock)
  | toolResults (results : List (String × String))

/-- The outcome of one `client.messages.create` call (under
`asyncio.wait_for`): a response, a timeout, or an exception. -/
inductive LLMResult where
  | response (content : List ContentBlock) (stop_reason : String)
      (tokensIn tokensOut : Nat)
  | timeout
  | exn (msg : String)

/-- models/fix_finder.py `ToolCall` (pydantic; the `tool_name` literal
constraint is enforced at construction). -/
structure ToolCallRec where
  tool_name : String
  arguments : JVal
  result_summary : String

/-- models/fix_finder.py `ReactStep`. -/
structure ReactStep where
  step_number : Nat
  observation : String
  reasoning : String
  action : String
  tool_calls : List ToolCallRec
  findings : List String

/-- The external collaborators of the fix finder, universally quantified in
every theorem.  `llm` receives whether the call carries the tool schema
(loop iterations do, the final-analysis call does not) and the message
history; `queryGuides` and `compareProducts` stand for one embed-then-search
round trip; `jsonLoads` is the standard-library JSON parser; `db` is the
database health for the n-th telemetry write of the invocation. -/
structure Collaborators where
  llm : Bool → List Message → LLMResult
  queryGuides : String → String → String → Except String (List Reasoner.Chunk)
  compareProducts : String → Except String (List Reasoner.Chunk × List Reasoner.Chunk)
  jsonLoads : String → Option JVal
  db : Nat → Bool

/-- The last text block of a response (`text_content` is overwritten by
each text block in the source loop). -/
def lastText (content : List ContentBlock) : String :=
  content.foldl (fun acc b => match b with
    | ContentBlock.text t => t
    | _ => acc) ""

/-- The first block carrying text, defaulting to `"{}"` (the extraction
used after the final-analysis call). -/
def firstText (content : List ContentBlock) : String :=
  match content with
  | [] => "\x7b\x7d"
  | ContentBlock.text t :: _ => t
  | ContentBlock.toolUse _ _ _ :: rest => firstText rest

/-- Python `str.strip()`. -/
def pyStrip (s : String) : String :=
  String.mk (((s.data.dropWhile Char.isWhitespace).reverse.dropWhile
    Char.isWhitespace).reverse)

/-- Python `str.find(c)`: first index or -1. -/
def pyFindChar (c : Char) (cs : List Char) : Int :=
  match cs.findIdx? (· == c) with
  | some i => (i : Int)
  | none => -1

/-- Python `str.rfind(c)`: last index or -1. -/
def pyRFindChar (c : Char) (cs : List Char) : Int :=
  match cs.reverse.findIdx? (· == c) with
  | some i => ((cs.length - 1 - i : Nat) : Int)
  | none => -1

/-- `FixFinderService._parse_final_response`: strip markdown code fencing
when present, slice from the first `\x7b` to the last `\x7d`, parse; every
failure path yields the empty object rather than raising. -/
def parse_final_response (jsonLoads : String → Option JVal) (text : String) : JVal :=
  let text :=
    if pyInStr "```" text then
      let lines := (text.data.splitOn '\n').map String.mk
      let res := lines.foldl (fun (st : Bool × List String) line =>
        if charsStartWith ("```".data) (pyStrip line).data then (!st.1, st.2)
        else if st.1 || charsStartWith ['\x7b'] (pyStrip line).data then
          (st.1, st.2 ++ [line])
        else (st.1, st.2)) (false, [])
      String.intercalate "\n" res.2
    else text
  let cs := text.data
  let start := pyFindChar '\x7b' cs
  let stop := pyRFindChar '\x7d' cs + 1
  if 0 ≤ start ∧ start < stop then
    match jsonLoads (String.mk ((cs.take stop.toNat).drop start.toNat)) with
    | some v => v
    | none => JVal.obj []
  else JVal.obj []

/-- The pydantic `GuideCitation` construction performed in
`_process_tool_calls` (the `gse` literal and score range constraints can
raise there, outside any tool-level `try`). -/
def mkGuideCitation (section_id gse snippet : String) (score : Rat) :
    Except String GuideCitation :=
  if (gse = "fannie_mae" ∨ gse = "freddie_mac") ∧ 0 ≤ score ∧ score ≤ 1 then
    Except.ok { section_id := section_id, gse := gse, snippet := snippet,
                relevance_score := score }
  else Except.error "ValidationError: GuideCitation"

/-- `FixFinderService._execute_query_guides`: its internal `try` catches
every collaborator failure and folds it into the summary; it returns raw
citation tuples `(section, gse, snippet, min(score, 1.0))` and the result
text. -/
def execute_query_guides (outcome : Except String (List Reasoner.Chunk)) :
    List (String × String × String × Rat) × String :=
  match outcome with
  | Except.error e => ([], "Search failed: " ++ e)
  | Except.ok results =>
    let cits := results.map (fun r =>
      (r.sectionKey.getD (r.id.getD "Unknown"), r.gse.getD "unknown",
       Reasoner.strTake 600 (r.text.getD ""), min (r.score.getD 0) 1))
    let parts := results.map (fun r =>
      "[" ++ (if r.gse.getD "unknown" = "fannie_mae" then "Fannie Mae"
              else "Freddie Mac") ++ " " ++
      r.sectionKey.getD (r.id.getD "Unknown") ++ "] " ++ r.title.getD "" ++
      "\n" ++ Reasoner.strTake 600 (r.text.getD ""))
    (cits, if parts.isEmpty then "No relevant sections found."
           else String.intercalate "\n---\n" parts)

/-- `FixFinderService._execute_compare_products`: its internal `try`
catches every collaborator failure; otherwise it extracts the top hit per
GSE. -/
def execute_compare_products
    (outcome : Except String (List Reasoner.Chunk × List Reasoner.Chunk)) :
    List (String × String) × String :=
  match outcome with
  | Except.error e => ([], "Comparison failed: " ++ e)
  | Except.ok (fannie, freddie) =>
    let f := fannie.head?.map (fun r => Reasoner.strTake 400 (r.text.getD ""))
    let fr := freddie.head?.map (fun r => Reasoner.strTake 400 (r.text.getD ""))
    let comparison := (f.map (fun t => [("homeready", t)])).getD [] ++
      (fr.map (fun t => [("home_possible", t)])).getD []
    let parts := (f.map (fun t => ["HomeReady:\n" ++ t])).getD [] ++
      (fr.map (fun t => ["Home Possible:\n" ++ t])).getD []
    (comparison, if parts.isEmpty then "No comparison data found."
                 else String.intercalate "\n\n" parts)

/-- The numeric coercion of the simulate-scenario overrides: Python raises
a TypeError at the first arithmetic use of a non-numeric override value
(and `sum(abs(v))` touches every value), so an overrides dict with any
non-numeric value raises; bools are numeric in Python. -/
def coerceChanges (changes : List (String × JVal)) :
    Except String (List (String × Rat)) :=
  changes.mapM (fun kv => match kv.2 with
    | JVal.num q => Except.ok (kv.1, q)
    | JVal.bool b => Except.ok (kv.1, if b then (1 : Rat) else 0)
    | _ => Except.error "TypeError: unsupported operand type")

/-- The pydantic `ToolCall` construction (its `tool_name` literal
constraint raises for an unrecognised tool name; the summary is truncated
to 500 characters for the trace). -/
def mkToolCall (name : String) (args : JVal) (summary : String) :
    Except String ToolCallRec :=
  if name = "query_guides" ∨ name = "simulate_scenario" ∨ name = "compare_products" then
    Except.ok { tool_name := name, arguments := args,
                result_summary := Reasoner.strTake 500 summary }
  else Except.error "ValidationError: ToolCall tool_name"

/-- A dynamic field read coerced to a string for a collaborator argument
(a non-string argument would make the collaborator call fail inside its
own `try`; the rendering is immaterial because the collaborator behaviour
is universally quantified). -/
def argString (v : JVal) : String :=
  match v with
  | JVal.str s => s
  | v => pyStrOfJVal v

/-- `FixFinderService._process_tool_calls`: execute each requested tool in
order.  A failure inside `query_guides`/`compare_products` is folded into
the result text by those helpers; a `simulate_scenario` division by zero, a
non-dict tool input, a non-numeric override, an invalid citation, or an
unknown tool name raises out of this function (to be caught by the loop
iteration's handler).  Returns the trace records, the tool-result messages,
and the harvested citations and simulations. -/
def process_tool_calls (C : Collaborators) (scenario : LoanScenario) :
    List (String × String × JVal) →
    Except String (List ToolCallRec × List (String × String) ×
      List GuideCitation × List SimulationResult)
  | [] => Except.ok ([], [], [], [])
  | (tcId, tcName, tcInput) :: rest => do
    let (result_summary, newCits, newSims) ←
      if tcName = "query_guides" then do
        let fields ← (match tcInput with
          | JVal.obj fs => Except.ok fs
          | _ => Except.error "AttributeError: no attribute get")
        let q := argString (JVal.pyGet fields "query" (JVal.str ""))
        let gse := argString (JVal.pyGet fields "gse_filter" (JVal.str "both"))
        let focus := argString (JVal.pyGet fields "focus_area" (JVal.str "general"))
        let (citTuples, summary) := execute_query_guides (C.queryGuides q gse focus)
        let cits ← citTuples.mapM (fun c => mkGuideCitation c.1 c.2.1 c.2.2.1 c.2.2.2)
        Except.ok (summary, cits, ([] : List SimulationResult))
      else if tcName = "simulate_scenario" then do
        let fields ← (match tcInput with
          | JVal.obj fs => Except.ok fs
          | _ => Except.error "AttributeError: no attribute get")
        let changesFields ← (match JVal.pyGet fields "changes" (JVal.obj []) with
          | JVal.obj cfs => Except.ok cfs
          | _ => Except.error "AttributeError: items")
        let changes ← coerceChanges changesFields
        let desc ← (match JVal.pyGet fields "description" (JVal.str "") with
          | JVal.str s => Except.ok s
          | _ => Except.error "ValidationError: scenario_description")
        let (sim, summary) ← (execute_simulate_scenario scenario changes desc).1
        Except.ok (summary, ([] : List GuideCitation), [sim])
      else if tcName = "compare_products" then do
        let fields ← (match tcInput with
          | JVal.obj fs => Except.ok fs
          | _ => Except.error "AttributeError: no attribute get")
        let area := argString (JVal.pyGet fields "requirement_area" (JVal.str ""))
        let (_, summary) := execute_compare_products (C.compareProducts area)
        Except.ok (summary, ([] : List GuideCitation), ([] : List SimulationResult))
      else
        Except.ok ("", ([] : List GuideCitation), ([] : List SimulationResult))
    let tcRec ← mkToolCall tcName tcInput result_summary
    let (restRecs, restResults, restCits, restSims) ←
      process_tool_calls C scenario rest
    Except.ok (tcRec :: restRecs, (tcId, result_summary) :: restResults,
      newCits ++ restCits, newSims ++ restSims)

/-- `_format_product_status`. -/
def format_product_status (products : List ProductResult) : String :=
  let lines := products.map (fun p =>
    "- " ++ p.product_name ++ ": " ++ (if p.eligible then "Eligible" else "Ineligible"))
  if lines.isEmpty then "- No products evaluated" else String.intercalate "\n" lines

/-- models/loan.py `LoanScenario.calculate_dti` (the pydantic model's own
rough estimate, used only for the prompt; it has no taxes/insurance
term). -/
def modelCalculateDti (s : LoanScenario) : Rat :=
  let rate : Rat := 6 / 100 / 12
  let n : Int := s.loan_term_years * 12
  let emp := if 0 < rate then
      s.loan_amount * (rate * (1 + rate) ^ n) / ((1 + rate) ^ n - 1)
    else s.loan_amount / (n : Rat)
  (s.monthly_debt_payments + emp) / (s.annual_income / 12)

/-- The initial user prompt of `_run_react_loop` (scenario summary,
violation list, product status).  The prompt is only an input to the
universally quantified generative collaborator; it is assembled from the
same pieces as the source f-string. -/
def build_initial_prompt (scenario : LoanScenario)
    (violations : List RuleViolation) (products : List ProductResult) : String :=
  let violation_list := String.intercalate "\n" (violations.map (fun v =>
    "- " ++ v.rule_name ++ ": " ++ v.rule_description ++ " (actual: " ++
    v.actual_value ++ ", required: " ++ v.required_value ++ ", source: " ++
    v.citation ++ ")"))
  let ltv := scenario.loan_amount / scenario.property_value
  let dti := modelCalculateDti scenario
  "LOAN SCENARIO:\n- Credit Score: " ++ toString scenario.credit_score ++
  "\n- Annual Income: $" ++ pyCommaFixed0 scenario.annual_income ++
  "\n- Loan Amount: $" ++ pyCommaFixed0 scenario.loan_amount ++
  "\n- Property Value: $" ++ pyCommaFixed0 scenario.property_value ++
  "\n- LTV: " ++ pyFixed 1 (ltv * 100) ++ "%" ++
  "\n- Monthly Debt: $" ++ pyCommaFixed0 scenario.monthly_debt_payments ++
  "\n- DTI: " ++ pyFixed 1 (dti * 100) ++ "%" ++
  "\n- Property Type: " ++ scenario.property_type ++
  "\n- Occupancy: " ++ scenario.occupancy ++
  "\n\nCURRENT VIOLATIONS:\n" ++ violation_list ++
  "\n\nPRODUCT STATUS:\n" ++ format_product_status products ++
  "\n\nPlease analyze these violations and find the best fixes." ++
  " Proceed with your analysis."

/-- The private state accumulated across loop iterations, plus an
instrumentation counter `llm_calls` counting the generative-collaborator
calls issued so far (the quantity claim C1 bounds). -/
structure LoopState where
  messages : List Message
  react_trace : List ReactStep
  all_citations : List GuideCitation
  all_simulations : List SimulationResult
  tokens_in : Nat
  tokens_out : Nat
  llm_calls : Nat

/-- How the iteration loop ended: with a terminal analysis returned from
inside the loop, or interrupted (timeout, exception, or iteration cap) so
that the dedicated final-analysis call follows. -/
inductive LoopExit where
  | finished (analysis : JVal)
  | interrupted

/-- The trace step recorded when an iteration times out. -/
def timeoutStep (k : Nat) : ReactStep :=
  { step_number := k, observation := "Iteration timed out",
    reasoning := "Claude API call exceeded 30 second timeout",
    action := "timeout", tool_calls := [], findings := [] }

/-- The trace step recorded when an iteration raises. -/
def errorStep (k : Nat) (e : String) : ReactStep :=
  { step_number := k, observation := "Error in iteration: " ++ e,
    reasoning := "Falling back to basic analysis",
    action := "error_recovery", tool_calls := [], findings := [] }

/-- The `for iteration in range(self._max_iterations)` loop of
`_run_react_loop`.  Each executed iteration issues exactly one generative
call; a timeout or exception appends a terminal trace step and breaks; a
response without tool calls (or with stop reason `end_turn`) returns the
parsed terminal payload from inside the loop. -/
def react_iterations (C : Collaborators) (scenario : LoanScenario) :
    Nat → Nat → LoopState → LoopExit × LoopState
  | 0, _, st => (LoopExit.interrupted, st)
  | fuel + 1, iteration, st =>
    let st := { st with llm_calls := st.llm_calls + 1 }
    match C.llm true st.messages with
    | LLMResult.timeout =>
      (LoopExit.interrupted,
       { st with react_trace := st.react_trace ++ [timeoutStep (iteration + 1)] })
    | LLMResult.exn e =>
      (LoopExit.interrupted,
       { st with react_trace := st.react_trace ++ [errorStep (iteration + 1) e] })
    | LLMResult.response content stop tin tout =>
      let st := { st with tokens_in := st.tokens_in + tin,
                          tokens_out := st.tokens_out + tout }
      let tool_calls := content.filterMap (fun b => match b with
        | ContentBlock.toolUse id nm inp => some (id, nm, inp)
        | _ => none)
      let text_content := lastText content
      let step : ReactStep :=
        { step_number := iteration + 1,
          observation := "Iteration " ++ toString (iteration + 1) ++
            ": Analyzing violations and determining next action",
          reasoning := if text_content ≠ "" then Reasoner.strTake 500 text_content
            else "Processing tool calls...",
          action := if ¬ tool_calls.isEmpty then "tool_calls" else "final_analysis",
          tool_calls := [], findings := [] }
      if tool_calls.isEmpty then
        let st := { st with react_trace := st.react_trace ++ [step] }
        (LoopExit.finished (parse_final_response C.jsonLoads text_content), st)
      else
        match process_tool_calls C scenario tool_calls with
        | Except.error e =>
          (LoopExit.interrupted,
           { st with react_trace := st.react_trace ++ [errorStep (iteration + 1) e] })
        | Except.ok (processed, toolResults, newCits, newSims) =>
          let step := { step with
                        tool_calls := processed,
                        findings := processed.map (fun r =>
                          Reasoner.strTake 200 r.result_summary) }
          let st := { st with
            messages := st.messages ++
              [Message.assistantBlocks content, Message.toolResults toolResults],
            all_citations := st.all_citations ++ newCits,
            all_simulations := st.all_simulations ++ newSims,
            react_trace := st.react_trace ++ [step] }
          if stop = "end_turn" then
            (LoopExit.finished (parse_final_response C.jsonLoads text_content), st)
          else react_iterations C scenario fuel (iteration + 1) st

/-- The dedicated final-analysis call issued after a break or after the
iteration cap: one more generative call; a timeout or exception yields the
empty payload. -/
def final_analysis_call (C : Collaborators) (st : LoopState) : JVal × LoopState :=
  let msgs := st.messages ++ [Message.user
    ("Please provide your final analysis now with enhanced_fixes, " ++
     "fix_sequences, and recommended_path. Respond with JSON only.")]
  let st := { st with messages := msgs, llm_calls := st.llm_calls + 1 }
  match C.llm false msgs with
  | LLMResult.timeout => (JVal.obj [], st)
  | LLMResult.exn _ => (JVal.obj [], st)
  | LLMResult.response content _ tin tout =>
    let st := { st with tokens_in := st.tokens_in + tin,
                        tokens_out := st.tokens_out + tout }
    (parse_final_response C.jsonLoads (firstText content), st)

/-- What `_run_react_loop` hands back on its normal return. -/
structure ReactReturn where
  analysis : JVal
  react_trace : List ReactStep
  all_citations : List GuideCitation
  all_simulations : List SimulationResult
  tokens_in : Nat
  tokens_out : Nat

/-- `FixFinderService._run_react_loop`.  The only exception it can
propagate is the missing-API-key `ValueError` of `_ensure_client` (every
other failure is caught inside the loop).  The second component is the
instrumentation count of generative-collaborator calls issued. -/
def run_react_loop (C : Collaborators) (apiKeyPresent : Bool)
    (max_iterations : Nat) (scenario : LoanScenario)
    (violations : List RuleViolation) (products : List ProductResult)
    (demo_mode : Bool) : Except String ReactReturn × Nat :=
  if apiKeyPresent then
    let st0 : LoopState :=
      { messages := [Message.user (build_initial_prompt scenario violations products)],
        react_trace := [], all_citations := [], all_simulations := [],
        tokens_in := 0, tokens_out := 0, llm_calls := 0 }
    match react_iterations C scenario max_iterations 0 st0 with
    | (LoopExit.finished analysis, st) =>
      (Except.ok { analysis := analysis, react_trace := st.react_trace,
                   all_citations := st.all_citations,
                   all_simulations := st.all_simulations,
                   tokens_in := st.tokens_in, tokens_out := st.tokens_out },
       st.llm_calls)
    | (LoopExit.interrupted, st) =>
      let (analysis, st2) := final_analysis_call C st
      (Except.ok { analysis := analysis, react_trace := st2.react_trace,
                   all_citations := st2.all_citations,
                   all_simulations := st2.all_simulations,
                   tokens_in := st2.tokens_in, tokens_out := st2.tokens_out },
       st2.llm_calls)
  else (Except.error "ValueError: ANTHROPIC_API_KEY not configured", 0)

/-! ### `find_fixes` (fix_finder_service.py) -/

/-- models/fix_finder.py `FixFinderResult` (wall-clock time carried as
written; it is not modelled). -/
structure FixFinderResult where
  enhanced_fixes : List EnhancedFixSuggestion
  fix_sequences : List FixSequence
  simulations : List SimulationResult
  recommended_path : String
  product_comparison : List (String × String)
  react_trace : List ReactStep
  total_iterations : Nat
  total_time_ms : Nat
  tokens_used : Nat

/-- `_flatten_to_string_dict`: stringify each value of a dict (nested
dicts via `json.dumps`, lists via comma joining, scalars via `str`);
raises on a non-dict argument. -/
def flatten_to_string_dict (data : JVal) : Except String (List (String × String)) :=
  match data with
  | JVal.obj fs => Except.ok (fs.map (fun kv => (kv.1,
      match kv.2 with
      | JVal.str s => s
      | JVal.obj inner => pyStrOfJVal (JVal.obj inner)
      | JVal.arr l => String.intercalate ", " (l.map pyStrOfJVal)
      | v => pyStrOfJVal v)))
  | _ => Except.error "AttributeError: no attribute items"

/-- `analysis.get(key, default)` guarded on the payload being an object. -/
def objGet (v : JVal) (key : String) (dflt : JVal) : Except String JVal :=
  match v with
  | JVal.obj fs => Except.ok (JVal.pyGet fs key dflt)
  | _ => Except.error "AttributeError: no attribute get"

/-- The recommended-path coercion of `find_fixes`: unwrap a nested dict to
`primary_recommendation` (whose value may be a non-string and then fails
the later pydantic validation), else dump the dict; stringify a truthy
non-dict; empty string otherwise. -/
def computeRecommendedPathJ (raw_path : JVal) : JVal :=
  match raw_path with
  | JVal.obj rfs =>
    let rp := JVal.pyGet rfs "primary_recommendation" (JVal.str "")
    if JVal.pyTruthy rp then rp
    else JVal.str (Reasoner.strTake 500 (pyStrOfJVal raw_path))
  | v => JVal.str (if JVal.pyTruthy v then pyStrOfJVal v else "")

/-- Everything the `try` block of `find_fixes` computes before the
success-telemetry write. -/
structure PreparedPieces where
  enhanced_fixes : List EnhancedFixSuggestion
  fix_sequences : List FixSequence
  simulations : List SimulationResult
  product_comparison : List (String × String)
  recommended_pathJ : JVal
  react_trace : List ReactStep
  tokens_in : Nat
  tokens_out : Nat

/-- The `try` block of `find_fixes` up to (not including) the
success-telemetry write: run the loop, normalize the payload, flatten the
comparison, coerce the recommended path.  The second component is the
generative-call count. -/
def find_fixes_prepare (C : Collaborators) (apiKeyPresent : Bool)
    (max_iterations : Nat) (scenario : LoanScenario)
    (violations : List RuleViolation) (products : List ProductResult)
    (demo_mode : Bool) : Except String PreparedPieces × Nat :=
  match run_react_loop C apiKeyPresent max_iterations scenario violations
      products demo_mode with
  | (Except.error e, n) => (Except.error e, n)
  | (Except.ok r, n) =>
    ((do
      let enhanced_fixes ← build_enhanced_fixes r.analysis r.all_citations violations
      let fix_sequences ← build_fix_sequences r.analysis enhanced_fixes
      let raw_comparison ← objGet r.analysis "product_comparison" (JVal.obj [])
      let product_comparison ← flatten_to_string_dict raw_comparison
      let raw_path ← objGet r.analysis "recommended_path" (JVal.str "")
      Except.ok { enhanced_fixes := enhanced_fixes,
                  fix_sequences := fix_sequences,
                  simulations := r.all_simulations,
                  product_comparison := product_comparison,
                  recommended_pathJ := computeRecommendedPathJ raw_path,
                  react_trace := r.react_trace, tokens_in := r.tokens_in,
                  tokens_out := r.tokens_out }), n)

/-- The fallback result returned by the exception handler of
`find_fixes`. -/
def fallbackFixFinderResult : FixFinderResult :=
  { enhanced_fixes := [], fix_sequences := [], simulations := [],
    recommended_path := "Analysis failed. Please review basic fix suggestions.",
    product_comparison := [], react_trace := [], total_iterations := 0,
    total_time_ms := 0, tokens_used := 0 }

/-- The success usage record of `find_fixes` (the configured model name
and wall-clock duration are immaterial to every claim and carried as
constants). -/
def fixFinderSuccessRecord (tin tout : Nat) : UsageRecord :=
  { service_name := "fix_finder", model_name := "anthropic-model",
    model_provider := "anthropic", request_type := "fix_finding",
    tokens_input := tin, tokens_output := tout, duration_ms := 0,
    success := true, error_message := none }

/-- The failure usage record of `find_fixes`. -/
def fixFinderFailureRecord (e : String) : UsageRecord :=
  { service_name := "fix_finder", model_name := "anthropic-model",
    model_provider := "anthropic", request_type := "fix_finding",
    tokens_input := 0, tokens_output := 0, duration_ms := 0,
    success := false, error_message := some e }

/-- `FixFinderService.find_fixes`.  The `try` block runs the pipeline and
then writes the success-telemetry record; constructing the returned
`FixFinderResult` afterwards validates `recommended_path` as a string and
can still raise — in that case the `except` handler writes a second
(failure) record and returns the fallback.  If the pipeline itself raises,
the handler writes the single failure record.  The function is total: no
exception propagates to the caller. -/
def find_fixes (C : Collaborators) (apiKeyPresent : Bool)
    (max_iterations : Nat) (scenario : LoanScenario)
    (violations : List RuleViolation) (products : List ProductResult)
    (demo_mode : Bool) (t : Tracker) : FixFinderResult × Tracker :=
  match find_fixes_prepare C apiKeyPresent max_iterations scenario violations
      products demo_mode with
  | (Except.ok p, _) =>
    let t1 := t.record (C.db 0) (fixFinderSuccessRecord p.tokens_in p.tokens_out)
    match asPyStr p.recommended_pathJ with
    | Except.ok rp =>
      ({ enhanced_fixes := p.enhanced_fixes, fix_sequences := p.fix_sequences,
         simulations := p.simulations, recommended_path := rp,
         product_comparison := p.product_comparison,
         react_trace := if demo_mode then p.react_trace else [],
         total_iterations := p.react_trace.length, total_time_ms := 0,
         tokens_used := p.tokens_in + p.tokens_out }, t1)
    | Except.error e =>
      let t2 := t1.record (C.db 1) (fixFinderFailureRecord e)
      (fallbackFixFinderResult, t2)
  | (Except.error e, _) =>
    let t1 := t.record (C.db 0) (fixFinderFailureRecord e)
    (fallbackFixFinderResult, t1)

/-- Each executed loop iteration issues exactly one generative call, so
the loop issues at most `fuel` calls beyond the count already in the
state. -/
theorem react_iterations_calls (C : Collaborators) (scenario : LoanScenario) :
    ∀ (fuel iteration : Nat) (st : LoopState),
      (react_iterations C scenario fuel iteration st).2.llm_calls ≤
        st.llm_calls + fuel := by
  intro fuel
  induction fuel with
  | zero => intro iteration st; simp [react_iterations]
  | succ fuel ih =>
    intro iteration st
    simp only [react_iterations]
    cases C.llm true st.messages with
    | timeout => simp
    | exn e => simp
    | response content stop tin tout =>
      simp only []
      split
      · simp
      · split
        · simp
        · split
          · simp
          · exact le_trans (ih _ _) (by simp; omega)

/-- The dedicated final-analysis call issues exactly one generative
call. -/
theorem final_analysis_calls (C : Collaborators) (st : LoopState) :
    (final_analysis_call C st).2.llm_calls = st.llm_calls + 1 := by
  simp only [final_analysis_call]
  cases C.llm false (st.messages ++ [Message.user
    ("Please provide your final analysis now with enhanced_fixes, " ++
     "fix_sequences, and recommended_path. Respond with JSON only.")]) <;> simp

end FixFinder

/-! ## Claim C1: the ReAct loop call bound -/

/-- C1: for every scenario, violations list, products list, configured
iteration cap, and every behaviour of the generative collaborator and of
the tool collaborators (tool-call responses, timeouts and exceptions on any
iteration included), one execution of `_run_react_loop` issues at most
`max_iterations + 1` generative-collaborator calls before returning. -/
theorem c1_react_loop_call_bound (C : FixFinder.Collaborators) (apiKey : Bool)
    (maxIter : Nat) (scenario : LoanScenario) (violations : List RuleViolation)
    (products : List ProductResult) (demo : Bool) :
    (FixFinder.run_react_loop C apiKey maxIter scenario violations products
      demo).2 ≤ maxIter + 1 := by
  simp only [FixFinder.run_react_loop]
  split
  · rcases hres : FixFinder.react_iterations C scenario maxIter 0
      { messages := [FixFinder.Message.user
          (FixFinder.build_initial_prompt scenario violations products)],
        react_trace := [], all_citations := [], all_simulations := [],
        tokens_in := 0, tokens_out := 0, llm_calls := 0 } with ⟨exit, st⟩
    have h := FixFinder.react_iterations_calls C scenario maxIter 0
      { messages := [FixFinder.Message.user
          (FixFinder.build_initial_prompt scenario violations products)],
        react_trace := [], all_citations := [], all_simulations := [],
        tokens_in := 0, tokens_out := 0, llm_calls := 0 }
    rw [hres] at h
    simp only at h
    cases exit with
    | finished analysis => simpa using le_trans h (by omega)
    | interrupted =>
      have h2 := FixFinder.final_analysis_calls C st
      simp only [h2]
      omega
  · simp

/-! ## Claim C10: find_fixes never propagates -/

/-- C10: `find_fixes` is total — no exception propagates to its caller
(the embedding returns a plain `FixFinderResult`, with every internal
raise point routed into the `except` handler) — and whenever the pipeline
raises (anywhere in the ReAct loop or the result assembly, including the
result-construction validation after the success telemetry write), the
returned value is the well-formed fallback: empty `enhanced_fixes`,
`fix_sequences` and `simulations`, zero iterations and tokens, and the
recommended-path string
"Analysis failed. Please review basic fix suggestions.". -/
theorem c10_find_fixes_fallback (C : FixFinder.Collaborators) (apiKey : Bool)
    (maxIter : Nat) (scenario : LoanScenario) (violations : List RuleViolation)
    (products : List ProductResult) (demo : Bool) (t : Tracker)
    (h : (∃ e n, FixFinder.find_fixes_prepare C apiKey maxIter scenario
            violations products demo = (Except.error e, n)) ∨
         (∃ p n e, FixFinder.find_fixes_prepare C apiKey maxIter scenario
            violations products demo = (Except.ok p, n) ∧
          FixFinder.asPyStr p.recommended_pathJ = Except.error e)) :
    (FixFinder.find_fixes C apiKey maxIter scenario violations products demo
        t).1 = FixFinder.fallbackFixFinderResult ∧
    FixFinder.fallbackFixFinderResult.enhanced_fixes = [] ∧
    FixFinder.fallbackFixFinderResult.fix_sequences = [] ∧
    FixFinder.fallbackFixFinderResult.simulations = [] ∧
    FixFinder.fallbackFixFinderResult.total_iterations = 0 ∧
    FixFinder.fallbackFixFinderResult.tokens_used = 0 ∧
    FixFinder.fallbackFixFinderResult.recommended_path =
      "Analysis failed. Please review basic fix suggestions." := by
  refine ⟨?_, rfl, rfl, rfl, rfl, rfl, rfl⟩
  obtain ⟨e, n, he⟩ | ⟨p, n, e, hp, he⟩ := h
  · simp only [FixFinder.find_fixes, he]
  · simp only [FixFinder.find_fixes, hp, he]

/-- A concrete collaborator bundle where every collaborator fails (the
generative model times out, retrieval is down, parsing yields nothing, the
database is healthy). -/
def failingCollaborators : FixFinder.Collaborators :=
  { llm := fun _ _ => FixFinder.LLMResult.timeout,
    queryGuides := fun _ _ _ => Except.error "service down",
    compareProducts := fun _ => Except.error "service down",
    jsonLoads := fun _ => none,
    db := fun _ => true }

/-- Witness for C10: with no API key configured, the pipeline raises and
`find_fixes` returns exactly the fallback result. -/
theorem c10_find_fixes_fallback_witness :
    (FixFinder.find_fixes failingCollaborators false 3 exampleScenarioA [] []
        false { db_records := [], in_memory_records := [] }).1 =
      FixFinder.fallbackFixFinderResult :=
  (c10_find_fixes_fallback failingCollaborators false 3 exampleScenarioA [] []
    false { db_records := [], in_memory_records := [] }
    (Or.inl ⟨"ValueError: ANTHROPIC_API_KEY not configured", 0, rfl⟩)).1

/-! ## EligibilityReasonerService.check_eligibility
(backend/app/services/eligibility_reasoner.py) -/

namespace Reasoner

/-- models/loan.py `FixSuggestion` (the basic one of the reasoner). -/
structure FixSuggestionBasic where
  description : String
  impact : String
  difficulty : String
deriving Repr, DecidableEq

/-- models/loan.py `ReasoningStep`. -/
structure ReasoningStep where
  rule : String
  product : String
  check : String
  result : String
  citation : String
  details : String
deriving Repr, DecidableEq

/-- The external collaborators of the eligibility reasoner: the retrieval
behaviour per batch query, the generative call (no timeout wrapper in this
path — the `await` either returns content with token counts or raises),
the JSON parser, and the database health per telemetry write. -/
structure ReasonerCollaborators where
  retrieval : Nat → QueryOutcome
  claude : String → Except String (List FixFinder.ContentBlock × Nat × Nat)
  jsonLoads : String → Option JVal
  db : Nat → Bool

/-- `build_analysis_prompt`: the loan summary plus the retrieved excerpts,
grouped by GSE.  The prompt is only an input to the universally quantified
generative collaborator; it is assembled from the same pieces as the
source f-strings (with the layout abbreviated). -/
def build_analysis_prompt (scenario : LoanScenario)
    (context_chunks : List Chunk) : String :=
  let ltv := scenario.loan_amount / scenario.property_value
  let dti := FixFinder.modelCalculateDti scenario
  let loan_info :=
    "LOAN SCENARIO:\n- Credit Score: " ++ toString scenario.credit_score ++
    "\n- Annual Income: $" ++ pyCommaFixed0 scenario.annual_income ++
    "\n- Loan Amount: $" ++ pyCommaFixed0 scenario.loan_amount ++
    "\n- Property Value: $" ++ pyCommaFixed0 scenario.property_value ++
    "\n- Calculated LTV: " ++ pyFixed 1 (ltv * 100) ++ "%" ++
    "\n- Calculated DTI: " ++ pyFixed 1 (dti * 100) ++ "%" ++
    "\n- Property Type: " ++ scenario.property_type ++
    "\n- Occupancy: " ++ scenario.occupancy
  let formatted := context_chunks.map (fun c =>
    "[" ++ c.sectionKey.getD "Section" ++ "] " ++ c.title.getD "" ++ "\n" ++
    strTake 800 (c.text.getD ""))
  loan_info ++ "\n\nGSE GUIDE EXCERPTS:\n\n" ++
  String.intercalate "\n---\n" formatted ++
  "\n\nAnalyze this loan scenario against the provided guide excerpts" ++
  " and determine eligibility for HomeReady and Home Possible." ++
  " Respond with JSON only."

/-- `analyze_with_claude`: call the generative collaborator, take the text
of the first content block (an empty response raises IndexError), strip
markdown code fencing, parse the JSON; a parse failure raises ValueError;
an API failure re-raises. -/
def analyze_with_claude (RC : ReasonerCollaborators) (prompt : String) :
    Except String (JVal × Nat × Nat) := do
  let (content, tin, tout) ← RC.claude prompt
  let t ← (match content.head? with
    | none => Except.error "IndexError: list index out of range"
    | some (FixFinder.ContentBlock.toolUse _ _ _) =>
      Except.error "AttributeError: no attribute text"
    | some (FixFinder.ContentBlock.text t) => Except.ok t)
  let response_text := FixFinder.pyStrip t
  let response_text ←
    if charsStartWith ("```".data) response_text.data then do
      let lines := (response_text.data.splitOn '\n').map String.mk
      let lines := (match lines.head? with
        | some l0 => if charsStartWith ("```".data) l0.data then lines.tail else lines
        | none => lines)
      -- `lines[-1]` on an emptied list raises
      match lines.getLast? with
      | none => Except.error "IndexError: list index out of range"
      | some ll =>
        let lines := if FixFinder.pyStrip ll = "```" then lines.dropLast else lines
        Except.ok (String.intercalate "\n" lines)
    else Except.ok response_text
  match RC.jsonLoads response_text with
  | some v => Except.ok (v, tin, tout)
  | none => Except.error "ValueError: Invalid JSON response from Claude"

/-- One rule entry of `_convert_to_results`: a non-dict entry raises at
`rule.get`; the `ReasoningStep` and (for a failing rule) the
`RuleViolation` validate their string fields. -/
def convertOneRule (productName gse : String) (rule : JVal) :
    Except String (ReasoningStep × Option RuleViolation) := do
  let rfs ← (match rule with
    | JVal.obj rfs => Except.ok rfs
    | _ => Except.error "AttributeError: no attribute get")
  let rule_name := JVal.pyGet rfs "rule_name" (JVal.str "unknown")
  let result := JVal.pyGet rfs "result" (JVal.str "pass")
  let ruleStr ← FixFinder.asPyStr rule_name
  let check ← FixFinder.asPyStr (JVal.pyGet rfs "requirement"
    (JVal.str "Unknown requirement"))
  let citation ← FixFinder.asPyStr (JVal.pyGet rfs "citation" (JVal.str ""))
  let details ← FixFinder.asPyStr (JVal.pyGet rfs "explanation" (JVal.str ""))
  let step : ReasoningStep :=
    { rule := ruleStr, product := productName, check := check,
      result := if result.isStr "pass" then "pass" else "fail",
      citation := citation, details := details }
  if result.isStr "fail" then do
    let rule_description ← FixFinder.asPyStr (JVal.pyGet rfs "requirement"
      (JVal.str "Eligibility requirement"))
    let actual_value ← FixFinder.asPyStr (JVal.pyGet rfs "actual_value"
      (JVal.str "N/A"))
    let required_value ← FixFinder.asPyStr (JVal.pyGet rfs "requirement"
      (JVal.str "See guide"))
    let vcitation ← FixFinder.asPyStr (JVal.pyGet rfs "citation"
      (JVal.str (if gse = "fannie_mae" then "Fannie Mae Guide" else "Freddie Mac Guide")))
    Except.ok (step, some
      { rule_name := ruleStr, rule_description := rule_description,
        actual_value := actual_value, required_value := required_value,
        citation := vcitation })
  else Except.ok (step, none)

/-- The `for rule in rules_checked` loop for one product. -/
def convertRules (productName gse : String) :
    List JVal → Except String (List ReasoningStep × List RuleViolation)
  | [] => Except.ok ([], [])
  | rule :: rest => do
    let (step, viol) ← convertOneRule productName gse rule
    let (steps, viols) ← convertRules productName gse rest
    Except.ok (step :: steps,
      (match viol with | some v => [v] | none => []) ++ viols)

/-- One product conversion of `_convert_to_results`: read the product
object, loop its rules, and read the `eligible` flag (defaulting to
no-violations; a non-boolean raises the pydantic validation). -/
def convertProduct (analysisFields : List (String × JVal))
    (key productName gse : String) :
    Except String (ProductResult × List ReasoningStep) := do
  let product_data := JVal.pyGet analysisFields key (JVal.obj [])
  let pfs ← (match product_data with
    | JVal.obj pfs => Except.ok pfs
    | _ => Except.error "AttributeError: no attribute get")
  let rules ← JVal.pyIterate (JVal.pyGet pfs "rules_checked" (JVal.arr []))
  let (steps, violations) ← convertRules productName gse rules
  let eligible ← (match JVal.pyGet pfs "eligible"
      (JVal.bool (violations.length == 0)) with
    | JVal.bool b => Except.ok b
    | _ => Except.error "ValidationError: bool required")
  Except.ok ({ product_name := productName, gse := gse, eligible := eligible,
               violations := violations }, steps)

/-- One fix-suggestion conversion (a non-dict raises at `.get`; the
description and impact fields validate as strings). -/
def convertSuggestions : List JVal → Except String (List FixSuggestionBasic)
  | [] => Except.ok []
  | s :: rest => do
    let sfs ← (match s with
      | JVal.obj sfs => Except.ok sfs
      | _ => Except.error "AttributeError: no attribute get")
    let difficulty := FixFinder.coerceDifficulty
      (JVal.pyGet sfs "difficulty" (JVal.str "moderate"))
    let d ← FixFinder.asPyStr (JVal.pyGet sfs "description" (JVal.str ""))
    let im ← FixFinder.asPyStr (JVal.pyGet sfs "impact" (JVal.str ""))
    let tail ← convertSuggestions rest
    Except.ok ({ description := d, impact := im, difficulty := difficulty } :: tail)

/-- `EligibilityReasonerService._convert_to_results`.  The recommendation
is returned as the raw value read from the payload (the source returns it
unvalidated). -/
def convert_to_results (analysis : JVal) :
    Except String (List ProductResult × JVal × List FixSuggestionBasic ×
      List ReasoningStep) := do
  let fs ← (match analysis with
    | JVal.obj fs => Except.ok fs
    | _ => Except.error "AttributeError: no attribute get")
  let (hr, hrSteps) ← convertProduct fs "homeready" "HomeReady" "fannie_mae"
  let (hp, hpSteps) ← convertProduct fs "home_possible" "Home Possible" "freddie_mac"
  let rawSuggestions ← JVal.pyIterate (JVal.pyGet fs "fix_suggestions" (JVal.arr []))
  let fix_suggestions ← convertSuggestions rawSuggestions
  let recommendation := JVal.pyGet fs "recommendation"
    (JVal.str "Analysis complete. Review the results for each product.")
  Except.ok ([hr, hp], recommendation, fix_suggestions, hrSteps ++ hpSteps)

/-- The success usage record of `check_eligibility`. -/
def reasonerSuccessRecord (tin tout : Nat) : UsageRecord :=
  { service_name := "eligibility_reasoner", model_name := "anthropic-model",
    model_provider := "anthropic", request_type := "reasoning",
    tokens_input := tin, tokens_output := tout, duration_ms := 0,
    success := true, error_message := none }

/-- `EligibilityReasonerService.check_eligibility`: retrieve context (a
mid-batch ValidationError propagates; an empty batch raises ValueError),
build the prompt, call the generative collaborator, convert the payload,
and — only after all of that has succeeded — write the single
success-telemetry record.  Every raising path exits before any telemetry
write. -/
def check_eligibility (RC : ReasonerCollaborators) (scenario : LoanScenario)
    (t : Tracker) :
    Except String (List ProductResult × JVal × List FixSuggestionBasic ×
      List RAGRetrieval) × Tracker :=
  match retrieve_eligibility_context scenario RC.retrieval with
  | Except.error e => (Except.error e, t)
  | Except.ok (raw_chunks, rag_retrievals) =>
    if raw_chunks.isEmpty then
      (Except.error "ValueError: Unable to retrieve guide context for analysis", t)
    else
      match analyze_with_claude RC (build_analysis_prompt scenario raw_chunks) with
      | Except.error e => (Except.error e, t)
      | Except.ok (analysis, tin, tout) =>
        match convert_to_results analysis with
        | Except.error e => (Except.error e, t)
        | Except.ok (products, recommendation, fix_suggestions, _steps) =>
          let t1 := t.record (RC.db 0) (reasonerSuccessRecord tin tout)
          (Except.ok (products, recommendation, fix_suggestions, rag_retrievals), t1)

end Reasoner

/-! ## Claim C9: exactly one telemetry record per core AI invocation -/

/-- C9 counterexample: with every retrieval query failing (a concrete,
realisable collaborator behaviour), `check_eligibility` raises the
no-context ValueError and writes zero usage-telemetry records, so the
claim that every invocation writes exactly one record — never zero — is
false as stated. -/
theorem c9_counterexample :
    (Reasoner.check_eligibility
      { retrieval := fun _ => Reasoner.QueryOutcome.failure "service down",
        claude := fun _ => Except.error "unreachable",
        jsonLoads := fun _ => none,
        db := fun _ => true }
      exampleScenarioA { db_records := [], in_memory_records := [] }) =
    (Except.error "ValueError: Unable to retrieve guide context for analysis",
     { db_records := [], in_memory_records := [] }) := rfl

/-- C9 amended: `find_fixes` writes exactly one usage-telemetry record per
invocation — except that when the pipeline succeeds and the final result
construction then fails its validation (a non-string unwrapped
recommended path), a second, failure record follows the success record;
and `check_eligibility` writes exactly one record when it returns
normally and zero records when it raises. -/
theorem c9_telemetry_amended (C : FixFinder.Collaborators) (apiKey : Bool)
    (maxIter : Nat) (scenario : LoanScenario) (violations : List RuleViolation)
    (products : List ProductResult) (demo : Bool)
    (RC : Reasoner.ReasonerCollaborators) (t t' : Tracker) :
    (((FixFinder.find_fixes C apiKey maxIter scenario violations products demo
        t).2.total = t.total + 1 ∨
      (FixFinder.find_fixes C apiKey maxIter scenario violations products demo
        t).2.total = t.total + 2) ∧
     ((FixFinder.find_fixes C apiKey maxIter scenario violations products demo
        t).2.total = t.total + 2 ↔
      ∃ p n e, FixFinder.find_fixes_prepare C apiKey maxIter scenario violations
          products demo = (Except.ok p, n) ∧
        FixFinder.asPyStr p.recommended_pathJ = Except.error e)) ∧
    (∀ r, (Reasoner.check_eligibility RC scenario t').1 = Except.ok r →
      (Reasoner.check_eligibility RC scenario t').2.total = t'.total + 1) ∧
    (∀ e, (Reasoner.check_eligibility RC scenario t').1 = Except.error e →
      (Reasoner.check_eligibility RC scenario t').2.total = t'.total) := by
  constructor
  · rcases hprep : FixFinder.find_fixes_prepare C apiKey maxIter scenario
        violations products demo with ⟨res, n⟩
    cases res with
    | error e =>
      constructor
      · exact Or.inl (by simp only [FixFinder.find_fixes, hprep,
          Tracker.record_total])
      · constructor
        · intro habs
          simp only [FixFinder.find_fixes, hprep, Tracker.record_total] at habs
          omega
        · rintro ⟨p', n', e', hp', he'⟩
          simp at hp'
    | ok p =>
      cases hval : FixFinder.asPyStr p.recommended_pathJ with
      | ok rp =>
        constructor
        · exact Or.inl (by simp only [FixFinder.find_fixes, hprep, hval,
            Tracker.record_total])
        · constructor
          · intro habs
            simp only [FixFinder.find_fixes, hprep, hval,
              Tracker.record_total] at habs
            omega
          · rintro ⟨p', n', e', hp', he'⟩
            rw [Prod.mk.injEq, Except.ok.injEq] at hp'
            rw [hp'.1] at hval
            rw [hval] at he'
            cases he'
      | error e =>
        constructor
        · exact Or.inr (by simp only [FixFinder.find_fixes, hprep, hval,
            Tracker.record_total])
        · constructor
          · intro _
            exact ⟨p, n, e, rfl, hval⟩
          · intro _
            simp only [FixFinder.find_fixes, hprep, hval, Tracker.record_total]
  · cases hr : Reasoner.retrieve_eligibility_context scenario RC.retrieval with
    | error e =>
      constructor
      · intro r habs
        simp [Reasoner.check_eligibility, hr] at habs
      · intro e' _
        simp [Reasoner.check_eligibility, hr]
    | ok pair =>
    rcases pair with ⟨raw, rag⟩
    cases hempty : raw.isEmpty with
    | true =>
      constructor
      · intro r habs
        simp [Reasoner.check_eligibility, hr, hempty] at habs
      · intro e _
        simp [Reasoner.check_eligibility, hr, hempty]
    | false =>
      cases hac : Reasoner.analyze_with_claude RC
          (Reasoner.build_analysis_prompt scenario raw) with
      | error e =>
        constructor
        · intro r habs
          simp [Reasoner.check_eligibility, hr, hempty, hac] at habs
        · intro e' _
          simp [Reasoner.check_eligibility, hr, hempty, hac]
      | ok good =>
        rcases good with ⟨analysis, tin, tout⟩
        cases hcv : Reasoner.convert_to_results analysis with
        | error e =>
          constructor
          · intro r habs
            simp [Reasoner.check_eligibility, hr, hempty, hac, hcv] at habs
          · intro e' _
            simp [Reasoner.check_eligibility, hr, hempty, hac, hcv]
        | ok quad =>
          rcases quad with ⟨products2, recommendation, fix_suggestions, steps⟩
          constructor
          · intro r _
            simp [Reasoner.check_eligibility, hr, hempty, hac, hcv,
              Tracker.record_total]
          · intro e habs
            simp [Reasoner.check_eligibility, hr, hempty, hac, hcv] at habs

/-- An all-queries-failing retrieval collaborator for the reasoner. -/
def c9AllFailRC : Reasoner.ReasonerCollaborators :=
  { retrieval := fun _ => Reasoner.QueryOutcome.failure "service down",
    claude := fun _ => Except.error "unreachable",
    jsonLoads := fun _ => none,
    db := fun _ => true }

/-- Closed instantiation of the amended C9 theorem: with every retrieval
query failing, `check_eligibility` raises the no-context ValueError and the
tracker total is unchanged (zero records written). -/
theorem c9_telemetry_amended_witness :
    (Reasoner.check_eligibility c9AllFailRC exampleScenarioA
      { db_records := [], in_memory_records := [] }).2.total =
    ({ db_records := [], in_memory_records := [] } : Tracker).total :=
  (c9_telemetry_amended failingCollaborators false 0 exampleScenarioA
    [] [] false c9AllFailRC { db_records := [], in_memory_records := [] }
    { db_records := [], in_memory_records := [] }).2.2
    "ValueError: Unable to retrieve guide context for analysis" (by rfl)


end Sage
